import Mathlib

/-!
Shallow embedding of `src/scripts/optimisers.js` (trajectory computation
engine of the optimiser-visualisation website).

Modelling conventions:
* JS numbers are embedded as exact rationals `ℚ`.  A value that is `NaN` or
  `±Infinity` (the values rejected by `Number.isFinite`) is represented by
  `none : Option ℚ`; a finite number `q` by `some q`.  Rational arithmetic
  has no overflow, so internally produced quantities are always finite.
* A raw evaluator result (`compiled.evaluate(scope)` in JS) can throw, return
  a JS number, or return a non-number value that the engine coerces with
  `Number(value)`; the inductive `RawResult` captures exactly these cases,
  recording for a non-number value the result of its numeric coercion.
* `Math.sqrt` is passed to `computeTrajectory2D` as an explicit function
  argument `sqrtFn : ℚ → ℚ` (the square root of a rational is in general
  irrational, so the JS builtin has no canonical rational counterpart); all
  theorems hold for an arbitrary such function.
* The JS engine throws `Error("Unsupported optimiser type: ...")` for an
  unrecognised optimiser; this is embedded as `Except.error` with the same
  message string.
* The JS arrays `xs`, `ys`, `zs` are preallocated with length `numSteps + 1`
  and every entry is written exactly once, so they are faithfully rebuilt as
  `List.ofFn` over the step-indexed state of each algorithm's loop.
-/

namespace Optimisers

/-- The constant `DEFAULT_NUM_STEPS = 20` from the source. -/
def DEFAULT_NUM_STEPS : ℕ := 20

/-- The constant `EPSILON = 1e-9` from the source. -/
def EPSILON : ℚ := 1 / 1000000000

/-- The constant `ADAM_EPSILON = 1e-8` from the source. -/
def ADAM_EPSILON : ℚ := 1 / 100000000

/-- Result of calling a raw (unprotected) evaluator on a scope:
`err` — the call threw; `num v` — it returned a JS number (`v = none` when
that number is `NaN`/`±Infinity`); `other c` — it returned a non-number
value whose coercion `Number(value)` is `c` (`none` when the coercion is
not finite). -/
inductive RawResult where
  | err : RawResult
  | num : Option ℚ → RawResult
  | other : Option ℚ → RawResult
deriving DecidableEq

/-- The function `evaluateNumber(compiled, scope)`: calls the evaluator inside
`try`/`catch`; a thrown error yields `NaN`; a number is kept; a non-number
is coerced with `Number(value)`; any non-finite outcome becomes `NaN`.
`none` is the embedded `NaN` sentinel. -/
def evaluateNumber {P : Type} (compiled : P → RawResult) (scope : P) : Option ℚ :=
  match compiled scope with
  | .err => none
  | .num v => v
  | .other c => c

/-- The function `ensureValue(value, fallback)`: the value if finite, else the fallback. -/
def ensureValue (value : Option ℚ) (fallback : ℚ) : ℚ :=
  value.getD fallback

/-- The `{xx, xy, yx, yy}` record returned by `invert2x2`. -/
structure Mat2 where
  xx : ℚ
  xy : ℚ
  yx : ℚ
  yy : ℚ
deriving DecidableEq

/-- The function `invert2x2(a, b, c, d)`: `null` (here `none`) when `|det| < EPSILON`,
otherwise the closed-form inverse scaled by `1 / det`.  (The JS guard also
rejects a non-finite determinant; rational arithmetic cannot overflow, so
that disjunct has no embedded counterpart.) -/
def invert2x2 (a b c d : ℚ) : Option Mat2 :=
  let det := a * d - b * c
  if |det| < EPSILON then none
  else
    let invDet := 1 / det
    some ⟨d * invDet, -b * invDet, -c * invDet, a * invDet⟩

/-- The settings record consumed by both trajectory functions. -/
structure Settings where
  optimiserType : String
  numSteps : Option ℕ
  initialX : ℚ
  initialY : ℚ
  learningRate : ℚ
  momentum : ℚ
  beta1 : ℚ
  beta2 : ℚ

/-- The 1D analysis handle: compiled objective, gradient and Hessian
evaluators over a scope `{x}`. -/
structure Analysis1 where
  fn : ℚ → RawResult
  gradient : ℚ → RawResult
  hessian : ℚ → RawResult

/-- The two compiled gradient components of a 2D analysis. -/
structure Grad2 where
  x : ℚ × ℚ → RawResult
  y : ℚ × ℚ → RawResult

/-- The four compiled Hessian components of a 2D analysis. -/
structure Hess2 where
  xx : ℚ × ℚ → RawResult
  xy : ℚ × ℚ → RawResult
  yx : ℚ × ℚ → RawResult
  yy : ℚ × ℚ → RawResult

/-- The 2D analysis handle over a scope `{x, y}` (embedded as a pair). -/
structure Analysis2 where
  fn : ℚ × ℚ → RawResult
  gradient : Grad2
  hessian : Hess2

/-- Loop state of the 1D Gradient Descent branch after `i` steps:
`xprev = xs[i-1]` (dummy `xs[0]` at `i = 0`, where the momentum term is
forced to `0` anyway), `x = xs[i]`, `y = ys[i]`. -/
structure GD1State where
  xprev : ℚ
  x : ℚ
  y : ℚ

/-- Step-indexed state of the 1D Gradient Descent loop
(`optimiserType === "Gradient Descent"` branch of `computeTrajectory1D`). -/
def gdSeq1 (analysis : Analysis1) (settings : Settings) : ℕ → GD1State
  | 0 =>
    ⟨settings.initialX, settings.initialX,
      ensureValue (evaluateNumber analysis.fn settings.initialX) 0⟩
  | i + 1 =>
    let st := gdSeq1 analysis settings i
    match evaluateNumber analysis.gradient st.x with
    | none => ⟨st.x, st.x, st.y⟩
    | some gradVal =>
      let momentumTerm := if i = 0 then 0 else settings.momentum * (st.x - st.xprev)
      let xNext := st.x - settings.learningRate * gradVal + momentumTerm
      ⟨st.x, xNext, ensureValue (evaluateNumber analysis.fn xNext) st.y⟩

/-- Loop state of the 1D Newton branch after `i` steps. -/
structure N1State where
  x : ℚ
  y : ℚ

/-- Step-indexed state of the 1D Newton loop
(`optimiserType === "Newton"` branch of `computeTrajectory1D`). -/
def newtonSeq1 (analysis : Analysis1) (settings : Settings) : ℕ → N1State
  | 0 =>
    ⟨settings.initialX,
      ensureValue (evaluateNumber analysis.fn settings.initialX) 0⟩
  | i + 1 =>
    let st := newtonSeq1 analysis settings i
    match evaluateNumber analysis.gradient st.x, evaluateNumber analysis.hessian st.x with
    | some gradVal, some hessVal =>
      if |hessVal| < EPSILON then ⟨st.x, st.y⟩
      else
        let xNext := st.x - gradVal / hessVal
        ⟨xNext, ensureValue (evaluateNumber analysis.fn xNext) st.y⟩
    | _, _ => ⟨st.x, st.y⟩

/-- The `{x, y}` arrays returned by `computeTrajectory1D`. -/
structure Traj1 where
  x : List ℚ
  y : List ℚ
deriving DecidableEq

/-- The function `computeTrajectory1D(analysis, settings)`: dispatches on
`settings.optimiserType`, throwing (here `Except.error`) on an unsupported
value; otherwise returns the arrays of length `numSteps + 1` filled by the
corresponding loop. -/
def computeTrajectory1D (analysis : Analysis1) (settings : Settings) :
    Except String Traj1 :=
  let numSteps := settings.numSteps.getD DEFAULT_NUM_STEPS
  if settings.optimiserType = "Gradient Descent" then
    .ok ⟨List.ofFn fun i : Fin (numSteps + 1) => (gdSeq1 analysis settings i).x,
      List.ofFn fun i : Fin (numSteps + 1) => (gdSeq1 analysis settings i).y⟩
  else if settings.optimiserType = "Newton" then
    .ok ⟨List.ofFn fun i : Fin (numSteps + 1) => (newtonSeq1 analysis settings i).x,
      List.ofFn fun i : Fin (numSteps + 1) => (newtonSeq1 analysis settings i).y⟩
  else
    .error ("Unsupported optimiser type: " ++ settings.optimiserType)

/-- Loop state of the 2D Gradient Descent branch after `i` steps:
`xprev, yprev` are `xs[i-1], ys[i-1]` (dummy initial values at `i = 0`). -/
structure GD2State where
  xprev : ℚ
  yprev : ℚ
  x : ℚ
  y : ℚ
  z : ℚ

/-- Step-indexed state of the 2D Gradient Descent loop. -/
def gdSeq2 (analysis : Analysis2) (settings : Settings) : ℕ → GD2State
  | 0 =>
    ⟨settings.initialX, settings.initialY, settings.initialX, settings.initialY,
      ensureValue (evaluateNumber analysis.fn (settings.initialX, settings.initialY)) 0⟩
  | i + 1 =>
    let st := gdSeq2 analysis settings i
    match evaluateNumber analysis.gradient.x (st.x, st.y),
        evaluateNumber analysis.gradient.y (st.x, st.y) with
    | some gradX, some gradY =>
      let momentumX := if i = 0 then 0 else settings.momentum * (st.x - st.xprev)
      let momentumY := if i = 0 then 0 else settings.momentum * (st.y - st.yprev)
      let xNext := st.x - settings.learningRate * gradX + momentumX
      let yNext := st.y - settings.learningRate * gradY + momentumY
      ⟨st.x, st.y, xNext, yNext,
        ensureValue (evaluateNumber analysis.fn (xNext, yNext)) st.z⟩
    | _, _ => ⟨st.x, st.y, st.x, st.y, st.z⟩

/-- Loop state of the Adam branch after `i` steps: position, objective and
the four running moment accumulators `mx, my, vx, vy`. -/
structure AdamState where
  x : ℚ
  y : ℚ
  z : ℚ
  mx : ℚ
  my : ℚ
  vx : ℚ
  vy : ℚ

/-- Step-indexed state of the Adam loop.  `sqrtFn` embeds `Math.sqrt`. -/
def adamSeq2 (sqrtFn : ℚ → ℚ) (analysis : Analysis2) (settings : Settings) :
    ℕ → AdamState
  | 0 =>
    ⟨settings.initialX, settings.initialY,
      ensureValue (evaluateNumber analysis.fn (settings.initialX, settings.initialY)) 0,
      0, 0, 0, 0⟩
  | i + 1 =>
    let st := adamSeq2 sqrtFn analysis settings i
    match evaluateNumber analysis.gradient.x (st.x, st.y),
        evaluateNumber analysis.gradient.y (st.x, st.y) with
    | some gradX, some gradY =>
      let mx := settings.beta1 * st.mx + (1 - settings.beta1) * gradX
      let my := settings.beta1 * st.my + (1 - settings.beta1) * gradY
      let vx := settings.beta2 * st.vx + (1 - settings.beta2) * gradX * gradX
      let vy := settings.beta2 * st.vy + (1 - settings.beta2) * gradY * gradY
      let beta1Correction := 1 - settings.beta1 ^ (i + 1)
      let beta2Correction := 1 - settings.beta2 ^ (i + 1)
      let mxHat := mx / (if EPSILON < |beta1Correction| then beta1Correction else EPSILON)
      let myHat := my / (if EPSILON < |beta1Correction| then beta1Correction else EPSILON)
      let vxHat := vx / (if EPSILON < |beta2Correction| then beta2Correction else EPSILON)
      let vyHat := vy / (if EPSILON < |beta2Correction| then beta2Correction else EPSILON)
      let xNext := st.x - settings.learningRate * mxHat / (sqrtFn vxHat + ADAM_EPSILON)
      let yNext := st.y - settings.learningRate * myHat / (sqrtFn vyHat + ADAM_EPSILON)
      ⟨xNext, yNext,
        ensureValue (evaluateNumber analysis.fn (xNext, yNext)) st.z,
        mx, my, vx, vy⟩
    | _, _ => ⟨st.x, st.y, st.z, st.mx, st.my, st.vx, st.vy⟩

/-- Loop state of the 2D Newton branch after `i` steps. -/
structure N2State where
  x : ℚ
  y : ℚ
  z : ℚ

/-- Step-indexed state of the 2D Newton loop. -/
def newtonSeq2 (analysis : Analysis2) (settings : Settings) : ℕ → N2State
  | 0 =>
    ⟨settings.initialX, settings.initialY,
      ensureValue (evaluateNumber analysis.fn (settings.initialX, settings.initialY)) 0⟩
  | i + 1 =>
    let st := newtonSeq2 analysis settings i
    match evaluateNumber analysis.gradient.x (st.x, st.y),
        evaluateNumber analysis.gradient.y (st.x, st.y),
        evaluateNumber analysis.hessian.xx (st.x, st.y),
        evaluateNumber analysis.hessian.xy (st.x, st.y),
        evaluateNumber analysis.hessian.yx (st.x, st.y),
        evaluateNumber analysis.hessian.yy (st.x, st.y) with
    | some gradX, some gradY, some hxx, some hxy, some hyx, some hyy =>
      match invert2x2 hxx hxy hyx hyy with
      | none => ⟨st.x, st.y, st.z⟩
      | some inv =>
        let stepX := inv.xx * gradX + inv.xy * gradY
        let stepY := inv.yx * gradX + inv.yy * gradY
        let xNext := st.x - stepX
        let yNext := st.y - stepY
        ⟨xNext, yNext,
          ensureValue (evaluateNumber analysis.fn (xNext, yNext)) st.z⟩
    | _, _, _, _, _, _ => ⟨st.x, st.y, st.z⟩

/-- The `{x, y, z}` arrays returned by `computeTrajectory2D`. -/
structure Traj2 where
  x : List ℚ
  y : List ℚ
  z : List ℚ
deriving DecidableEq

/-- The function `computeTrajectory2D(analysis, settings)` with `Math.sqrt` embedded as
`sqrtFn`. -/
def computeTrajectory2D (sqrtFn : ℚ → ℚ) (analysis : Analysis2)
    (settings : Settings) : Except String Traj2 :=
  let numSteps := settings.numSteps.getD DEFAULT_NUM_STEPS
  if settings.optimiserType = "Gradient Descent" then
    .ok ⟨List.ofFn fun i : Fin (numSteps + 1) => (gdSeq2 analysis settings i).x,
      List.ofFn fun i : Fin (numSteps + 1) => (gdSeq2 analysis settings i).y,
      List.ofFn fun i : Fin (numSteps + 1) => (gdSeq2 analysis settings i).z⟩
  else if settings.optimiserType = "Adam" then
    .ok ⟨List.ofFn fun i : Fin (numSteps + 1) => (adamSeq2 sqrtFn analysis settings i).x,
      List.ofFn fun i : Fin (numSteps + 1) => (adamSeq2 sqrtFn analysis settings i).y,
      List.ofFn fun i : Fin (numSteps + 1) => (adamSeq2 sqrtFn analysis settings i).z⟩
  else if settings.optimiserType = "Newton" then
    .ok ⟨List.ofFn fun i : Fin (numSteps + 1) => (newtonSeq2 analysis settings i).x,
      List.ofFn fun i : Fin (numSteps + 1) => (newtonSeq2 analysis settings i).y,
      List.ofFn fun i : Fin (numSteps + 1) => (newtonSeq2 analysis settings i).z⟩
  else
    .error ("Unsupported optimiser type: " ++ settings.optimiserType)

/-! ### Helper lemmas -/

/-- Indexing a `List.ofFn` through `getD` inside bounds. -/
lemma getD_ofFn {n : ℕ} (f : Fin n → ℚ) (i : ℕ) (h : i < n) :
    (List.ofFn f).getD i 0 = f ⟨i, h⟩ := by
  rw [List.getD_eq_getElem _ _ (by simpa using h)]
  simp

/-- Unfolding of `computeTrajectory1D` on its Gradient Descent branch. -/
lemma computeTrajectory1D_gd {analysis : Analysis1} {settings : Settings}
    (h : settings.optimiserType = "Gradient Descent") :
    computeTrajectory1D analysis settings = Except.ok
      ⟨List.ofFn fun i : Fin (settings.numSteps.getD DEFAULT_NUM_STEPS + 1) =>
          (gdSeq1 analysis settings i).x,
        List.ofFn fun i : Fin (settings.numSteps.getD DEFAULT_NUM_STEPS + 1) =>
          (gdSeq1 analysis settings i).y⟩ := by
  simp [computeTrajectory1D, h]

/-- Unfolding of `computeTrajectory1D` on its Newton branch. -/
lemma computeTrajectory1D_newton {analysis : Analysis1} {settings : Settings}
    (h : settings.optimiserType = "Newton") :
    computeTrajectory1D analysis settings = Except.ok
      ⟨List.ofFn fun i : Fin (settings.numSteps.getD DEFAULT_NUM_STEPS + 1) =>
          (newtonSeq1 analysis settings i).x,
        List.ofFn fun i : Fin (settings.numSteps.getD DEFAULT_NUM_STEPS + 1) =>
          (newtonSeq1 analysis settings i).y⟩ := by
  simp [computeTrajectory1D, h]

/-- Unfolding of `computeTrajectory2D` on its Gradient Descent branch. -/
lemma computeTrajectory2D_gd {sqrtFn : ℚ → ℚ} {analysis : Analysis2}
    {settings : Settings} (h : settings.optimiserType = "Gradient Descent") :
    computeTrajectory2D sqrtFn analysis settings = Except.ok
      ⟨List.ofFn fun i : Fin (settings.numSteps.getD DEFAULT_NUM_STEPS + 1) =>
          (gdSeq2 analysis settings i).x,
        List.ofFn fun i : Fin (settings.numSteps.getD DEFAULT_NUM_STEPS + 1) =>
          (gdSeq2 analysis settings i).y,
        List.ofFn fun i : Fin (settings.numSteps.getD DEFAULT_NUM_STEPS + 1) =>
          (gdSeq2 analysis settings i).z⟩ := by
  simp [computeTrajectory2D, h]

/-- Unfolding of `computeTrajectory2D` on its Adam branch. -/
lemma computeTrajectory2D_adam {sqrtFn : ℚ → ℚ} {analysis : Analysis2}
    {settings : Settings} (h : settings.optimiserType = "Adam") :
    computeTrajectory2D sqrtFn analysis settings = Except.ok
      ⟨List.ofFn fun i : Fin (settings.numSteps.getD DEFAULT_NUM_STEPS + 1) =>
          (adamSeq2 sqrtFn analysis settings i).x,
        List.ofFn fun i : Fin (settings.numSteps.getD DEFAULT_NUM_STEPS + 1) =>
          (adamSeq2 sqrtFn analysis settings i).y,
        List.ofFn fun i : Fin (settings.numSteps.getD DEFAULT_NUM_STEPS + 1) =>
          (adamSeq2 sqrtFn analysis settings i).z⟩ := by
  simp [computeTrajectory2D, h]

/-- Unfolding of `computeTrajectory2D` on its Newton branch. -/
lemma computeTrajectory2D_newton {sqrtFn : ℚ → ℚ} {analysis : Analysis2}
    {settings : Settings} (h : settings.optimiserType = "Newton") :
    computeTrajectory2D sqrtFn analysis settings = Except.ok
      ⟨List.ofFn fun i : Fin (settings.numSteps.getD DEFAULT_NUM_STEPS + 1) =>
          (newtonSeq2 analysis settings i).x,
        List.ofFn fun i : Fin (settings.numSteps.getD DEFAULT_NUM_STEPS + 1) =>
          (newtonSeq2 analysis settings i).y,
        List.ofFn fun i : Fin (settings.numSteps.getD DEFAULT_NUM_STEPS + 1) =>
          (newtonSeq2 analysis settings i).z⟩ := by
  simp [computeTrajectory2D, h]

/-- On the 1D Gradient Descent branch the returned arrays agree with the
loop state at every in-range index. -/
lemma traj1_gd_getD {analysis : Analysis1} {settings : Settings} {t : Traj1}
    (hty : settings.optimiserType = "Gradient Descent")
    (ht : computeTrajectory1D analysis settings = Except.ok t) {i : ℕ}
    (hi : i < settings.numSteps.getD DEFAULT_NUM_STEPS + 1) :
    t.x.getD i 0 = (gdSeq1 analysis settings i).x ∧
      t.y.getD i 0 = (gdSeq1 analysis settings i).y := by
  have h := @computeTrajectory1D_gd analysis settings hty
  rw [ht] at h
  injection h with h
  subst h
  exact ⟨getD_ofFn (fun j => (gdSeq1 analysis settings j).x) i hi,
    getD_ofFn (fun j => (gdSeq1 analysis settings j).y) i hi⟩

/-- On the 1D Newton branch the returned arrays agree with the loop state. -/
lemma traj1_newton_getD {analysis : Analysis1} {settings : Settings} {t : Traj1}
    (hty : settings.optimiserType = "Newton")
    (ht : computeTrajectory1D analysis settings = Except.ok t) {i : ℕ}
    (hi : i < settings.numSteps.getD DEFAULT_NUM_STEPS + 1) :
    t.x.getD i 0 = (newtonSeq1 analysis settings i).x ∧
      t.y.getD i 0 = (newtonSeq1 analysis settings i).y := by
  have h := @computeTrajectory1D_newton analysis settings hty
  rw [ht] at h
  injection h with h
  subst h
  exact ⟨getD_ofFn (fun j => (newtonSeq1 analysis settings j).x) i hi,
    getD_ofFn (fun j => (newtonSeq1 analysis settings j).y) i hi⟩

/-- On the 2D Gradient Descent branch the returned arrays agree with the
loop state. -/
lemma traj2_gd_getD {sqrtFn : ℚ → ℚ} {analysis : Analysis2} {settings : Settings}
    {t : Traj2} (hty : settings.optimiserType = "Gradient Descent")
    (ht : computeTrajectory2D sqrtFn analysis settings = Except.ok t) {i : ℕ}
    (hi : i < settings.numSteps.getD DEFAULT_NUM_STEPS + 1) :
    t.x.getD i 0 = (gdSeq2 analysis settings i).x ∧
      t.y.getD i 0 = (gdSeq2 analysis settings i).y ∧
      t.z.getD i 0 = (gdSeq2 analysis settings i).z := by
  have h := @computeTrajectory2D_gd sqrtFn analysis settings hty
  rw [ht] at h
  injection h with h
  subst h
  exact ⟨getD_ofFn (fun j => (gdSeq2 analysis settings j).x) i hi,
    getD_ofFn (fun j => (gdSeq2 analysis settings j).y) i hi,
    getD_ofFn (fun j => (gdSeq2 analysis settings j).z) i hi⟩

/-- On the Adam branch the returned arrays agree with the loop state. -/
lemma traj2_adam_getD {sqrtFn : ℚ → ℚ} {analysis : Analysis2} {settings : Settings}
    {t : Traj2} (hty : settings.optimiserType = "Adam")
    (ht : computeTrajectory2D sqrtFn analysis settings = Except.ok t) {i : ℕ}
    (hi : i < settings.numSteps.getD DEFAULT_NUM_STEPS + 1) :
    t.x.getD i 0 = (adamSeq2 sqrtFn analysis settings i).x ∧
      t.y.getD i 0 = (adamSeq2 sqrtFn analysis settings i).y ∧
      t.z.getD i 0 = (adamSeq2 sqrtFn analysis settings i).z := by
  have h := @computeTrajectory2D_adam sqrtFn analysis settings hty
  rw [ht] at h
  injection h with h
  subst h
  exact ⟨getD_ofFn (fun j => (adamSeq2 sqrtFn analysis settings j).x) i hi,
    getD_ofFn (fun j => (adamSeq2 sqrtFn analysis settings j).y) i hi,
    getD_ofFn (fun j => (adamSeq2 sqrtFn analysis settings j).z) i hi⟩

/-- On the 2D Newton branch the returned arrays agree with the loop state. -/
lemma traj2_newton_getD {sqrtFn : ℚ → ℚ} {analysis : Analysis2} {settings : Settings}
    {t : Traj2} (hty : settings.optimiserType = "Newton")
    (ht : computeTrajectory2D sqrtFn analysis settings = Except.ok t) {i : ℕ}
    (hi : i < settings.numSteps.getD DEFAULT_NUM_STEPS + 1) :
    t.x.getD i 0 = (newtonSeq2 analysis settings i).x ∧
      t.y.getD i 0 = (newtonSeq2 analysis settings i).y ∧
      t.z.getD i 0 = (newtonSeq2 analysis settings i).z := by
  have h := @computeTrajectory2D_newton sqrtFn analysis settings hty
  rw [ht] at h
  injection h with h
  subst h
  exact ⟨getD_ofFn (fun j => (newtonSeq2 analysis settings j).x) i hi,
    getD_ofFn (fun j => (newtonSeq2 analysis settings j).y) i hi,
    getD_ofFn (fun j => (newtonSeq2 analysis settings j).z) i hi⟩

/-- The `xprev` field of the 1D Gradient Descent state records the previous
array entry `xs[i]`. -/
lemma gdSeq1_xprev (analysis : Analysis1) (settings : Settings) (i : ℕ) :
    (gdSeq1 analysis settings (i + 1)).xprev = (gdSeq1 analysis settings i).x := by
  cases h : evaluateNumber analysis.gradient (gdSeq1 analysis settings i).x <;>
    simp [gdSeq1, h]

/-- The `xprev` field of the 2D Gradient Descent state records `xs[i]`. -/
lemma gdSeq2_xprev (analysis : Analysis2) (settings : Settings) (i : ℕ) :
    (gdSeq2 analysis settings (i + 1)).xprev = (gdSeq2 analysis settings i).x := by
  cases hx : evaluateNumber analysis.gradient.x
      ((gdSeq2 analysis settings i).x, (gdSeq2 analysis settings i).y) <;>
    cases hy : evaluateNumber analysis.gradient.y
      ((gdSeq2 analysis settings i).x, (gdSeq2 analysis settings i).y) <;>
    simp [gdSeq2, hx, hy]

/-- The `yprev` field of the 2D Gradient Descent state records `ys[i]`. -/
lemma gdSeq2_yprev (analysis : Analysis2) (settings : Settings) (i : ℕ) :
    (gdSeq2 analysis settings (i + 1)).yprev = (gdSeq2 analysis settings i).y := by
  cases hx : evaluateNumber analysis.gradient.x
      ((gdSeq2 analysis settings i).x, (gdSeq2 analysis settings i).y) <;>
    cases hy : evaluateNumber analysis.gradient.y
      ((gdSeq2 analysis settings i).x, (gdSeq2 analysis settings i).y) <;>
    simp [gdSeq2, hx, hy]

/-- A gradient evaluator that is invalid everywhere freezes the 1D Gradient
Descent loop in its initial state. -/
lemma gdSeq1_stall_all {analysis : Analysis1} {settings : Settings}
    (hg : ∀ p, evaluateNumber analysis.gradient p = none) (i : ℕ) :
    gdSeq1 analysis settings i = gdSeq1 analysis settings 0 := by
  induction i with
  | zero => rfl
  | succ j ih =>
    have hstep : gdSeq1 analysis settings (j + 1) =
        ⟨(gdSeq1 analysis settings j).x, (gdSeq1 analysis settings j).x,
          (gdSeq1 analysis settings j).y⟩ := by
      simp [gdSeq1, hg]
    rw [hstep, ih]
    rfl

/-- Invalid gradient and/or Hessian everywhere freezes the 1D Newton loop.
Only the gradient hypothesis is needed: the stall branch already fires on an
invalid gradient. -/
lemma newtonSeq1_stall_all {analysis : Analysis1} {settings : Settings}
    (hg : ∀ p, evaluateNumber analysis.gradient p = none) (i : ℕ) :
    newtonSeq1 analysis settings i = newtonSeq1 analysis settings 0 := by
  induction i with
  | zero => rfl
  | succ j ih =>
    have hstep : newtonSeq1 analysis settings (j + 1) =
        ⟨(newtonSeq1 analysis settings j).x, (newtonSeq1 analysis settings j).y⟩ := by
      cases hh : evaluateNumber analysis.hessian (newtonSeq1 analysis settings j).x <;>
        simp [newtonSeq1, hg, hh]
    rw [hstep, ih]

/-- An invalid `x`-gradient everywhere freezes the 2D Gradient Descent loop. -/
lemma gdSeq2_stall_all {analysis : Analysis2} {settings : Settings}
    (hgx : ∀ p, evaluateNumber analysis.gradient.x p = none) (i : ℕ) :
    gdSeq2 analysis settings i = gdSeq2 analysis settings 0 := by
  induction i with
  | zero => rfl
  | succ j ih =>
    have hstep : gdSeq2 analysis settings (j + 1) =
        ⟨(gdSeq2 analysis settings j).x, (gdSeq2 analysis settings j).y,
          (gdSeq2 analysis settings j).x, (gdSeq2 analysis settings j).y,
          (gdSeq2 analysis settings j).z⟩ := by
      cases hy : evaluateNumber analysis.gradient.y
          ((gdSeq2 analysis settings j).x, (gdSeq2 analysis settings j).y) <;>
        simp [gdSeq2, hgx, hy]
    rw [hstep, ih]
    rfl

/-- An invalid `x`-gradient everywhere freezes the Adam loop (position,
objective and moments). -/
lemma adamSeq2_stall_all {sqrtFn : ℚ → ℚ} {analysis : Analysis2} {settings : Settings}
    (hgx : ∀ p, evaluateNumber analysis.gradient.x p = none) (i : ℕ) :
    adamSeq2 sqrtFn analysis settings i = adamSeq2 sqrtFn analysis settings 0 := by
  induction i with
  | zero => rfl
  | succ j ih =>
    have hstep : adamSeq2 sqrtFn analysis settings (j + 1) =
        ⟨(adamSeq2 sqrtFn analysis settings j).x, (adamSeq2 sqrtFn analysis settings j).y,
          (adamSeq2 sqrtFn analysis settings j).z, (adamSeq2 sqrtFn analysis settings j).mx,
          (adamSeq2 sqrtFn analysis settings j).my, (adamSeq2 sqrtFn analysis settings j).vx,
          (adamSeq2 sqrtFn analysis settings j).vy⟩ := by
      cases hy : evaluateNumber analysis.gradient.y
          ((adamSeq2 sqrtFn analysis settings j).x, (adamSeq2 sqrtFn analysis settings j).y) <;>
        simp [adamSeq2, hgx, hy]
    rw [hstep, ih]

/-- An invalid `x`-gradient everywhere freezes the 2D Newton loop. -/
lemma newtonSeq2_stall_all {analysis : Analysis2} {settings : Settings}
    (hgx : ∀ p, evaluateNumber analysis.gradient.x p = none) (i : ℕ) :
    newtonSeq2 analysis settings i = newtonSeq2 analysis settings 0 := by
  induction i with
  | zero => rfl
  | succ j ih =>
    have hstep : newtonSeq2 analysis settings (j + 1) =
        ⟨(newtonSeq2 analysis settings j).x, (newtonSeq2 analysis settings j).y,
          (newtonSeq2 analysis settings j).z⟩ := by
      simp [newtonSeq2, hgx]
    rw [hstep, ih]

/-- Positions of the 1D Gradient Descent loop do not depend on the objective
evaluator, only on the gradient evaluator. -/
lemma gdSeq1_x_indep {analysis analysis' : Analysis1} {settings : Settings}
    (hg : analysis'.gradient = analysis.gradient) (i : ℕ) :
    (gdSeq1 analysis' settings i).xprev = (gdSeq1 analysis settings i).xprev ∧
      (gdSeq1 analysis' settings i).x = (gdSeq1 analysis settings i).x := by
  induction i with
  | zero => constructor <;> simp [gdSeq1]
  | succ j ih =>
    obtain ⟨ihp, ihx⟩ := ih
    cases h : evaluateNumber analysis.gradient (gdSeq1 analysis settings j).x with
    | none => constructor <;> simp [gdSeq1, hg, ihp, ihx, h]
    | some g => constructor <;> simp [gdSeq1, hg, ihp, ihx, h]

/-- Positions of the 1D Newton loop do not depend on the objective
evaluator, only on the gradient and Hessian evaluators. -/
lemma newtonSeq1_x_indep {analysis analysis' : Analysis1} {settings : Settings}
    (hg : analysis'.gradient = analysis.gradient)
    (hh : analysis'.hessian = analysis.hessian) (i : ℕ) :
    (newtonSeq1 analysis' settings i).x = (newtonSeq1 analysis settings i).x := by
  induction i with
  | zero => simp [newtonSeq1]
  | succ j ih =>
    cases hgv : evaluateNumber analysis.gradient (newtonSeq1 analysis settings j).x with
    | none => simp [newtonSeq1, hg, hh, ih, hgv]
    | some g =>
      cases hhv : evaluateNumber analysis.hessian (newtonSeq1 analysis settings j).x with
      | none => simp [newtonSeq1, hg, hh, ih, hgv, hhv]
      | some hv =>
        by_cases hvsmall : |hv| < EPSILON
        · simp [newtonSeq1, hg, hh, ih, hgv, hhv, hvsmall]
        · simp [newtonSeq1, hg, hh, ih, hgv, hhv, hvsmall]

/-- Positions of the 2D Gradient Descent loop do not depend on the objective
evaluator. -/
lemma gdSeq2_xy_indep {analysis analysis' : Analysis2} {settings : Settings}
    (hg : analysis'.gradient = analysis.gradient) (i : ℕ) :
    (gdSeq2 analysis' settings i).xprev = (gdSeq2 analysis settings i).xprev ∧
      (gdSeq2 analysis' settings i).yprev = (gdSeq2 analysis settings i).yprev ∧
      (gdSeq2 analysis' settings i).x = (gdSeq2 analysis settings i).x ∧
      (gdSeq2 analysis' settings i).y = (gdSeq2 analysis settings i).y := by
  induction i with
  | zero => refine ⟨?_, ?_, ?_, ?_⟩ <;> simp [gdSeq2]
  | succ j ih =>
    obtain ⟨ihxp, ihyp, ihx, ihy⟩ := ih
    cases hx : evaluateNumber analysis.gradient.x
        ((gdSeq2 analysis settings j).x, (gdSeq2 analysis settings j).y) with
    | none => refine ⟨?_, ?_, ?_, ?_⟩ <;> simp [gdSeq2, hg, ihxp, ihyp, ihx, ihy, hx]
    | some gx =>
      cases hy : evaluateNumber analysis.gradient.y
          ((gdSeq2 analysis settings j).x, (gdSeq2 analysis settings j).y) with
      | none => refine ⟨?_, ?_, ?_, ?_⟩ <;> simp [gdSeq2, hg, ihxp, ihyp, ihx, ihy, hx, hy]
      | some gy => refine ⟨?_, ?_, ?_, ?_⟩ <;> simp [gdSeq2, hg, ihxp, ihyp, ihx, ihy, hx, hy]

/-- Positions and moments of the Adam loop do not depend on the objective
evaluator. -/
lemma adamSeq2_xy_indep {sqrtFn : ℚ → ℚ} {analysis analysis' : Analysis2}
    {settings : Settings} (hg : analysis'.gradient = analysis.gradient) (i : ℕ) :
    (adamSeq2 sqrtFn analysis' settings i).x = (adamSeq2 sqrtFn analysis settings i).x ∧
      (adamSeq2 sqrtFn analysis' settings i).y = (adamSeq2 sqrtFn analysis settings i).y ∧
      (adamSeq2 sqrtFn analysis' settings i).mx = (adamSeq2 sqrtFn analysis settings i).mx ∧
      (adamSeq2 sqrtFn analysis' settings i).my = (adamSeq2 sqrtFn analysis settings i).my ∧
      (adamSeq2 sqrtFn analysis' settings i).vx = (adamSeq2 sqrtFn analysis settings i).vx ∧
      (adamSeq2 sqrtFn analysis' settings i).vy = (adamSeq2 sqrtFn analysis settings i).vy := by
  induction i with
  | zero => refine ⟨?_, ?_, ?_, ?_, ?_, ?_⟩ <;> simp [adamSeq2]
  | succ j ih =>
    obtain ⟨ihx, ihy, ihmx, ihmy, ihvx, ihvy⟩ := ih
    cases hx : evaluateNumber analysis.gradient.x
        ((adamSeq2 sqrtFn analysis settings j).x, (adamSeq2 sqrtFn analysis settings j).y) with
    | none =>
      refine ⟨?_, ?_, ?_, ?_, ?_, ?_⟩ <;>
        simp [adamSeq2, hg, ihx, ihy, ihmx, ihmy, ihvx, ihvy, hx]
    | some gx =>
      cases hy : evaluateNumber analysis.gradient.y
          ((adamSeq2 sqrtFn analysis settings j).x, (adamSeq2 sqrtFn analysis settings j).y) with
      | none =>
        refine ⟨?_, ?_, ?_, ?_, ?_, ?_⟩ <;>
          simp [adamSeq2, hg, ihx, ihy, ihmx, ihmy, ihvx, ihvy, hx, hy]
      | some gy =>
        refine ⟨?_, ?_, ?_, ?_, ?_, ?_⟩ <;>
          simp [adamSeq2, hg, ihx, ihy, ihmx, ihmy, ihvx, ihvy, hx, hy]

/-- Positions of the 2D Newton loop do not depend on the objective
evaluator. -/
lemma newtonSeq2_xy_indep {analysis analysis' : Analysis2} {settings : Settings}
    (hg : analysis'.gradient = analysis.gradient)
    (hh : analysis'.hessian = analysis.hessian) (i : ℕ) :
    (newtonSeq2 analysis' settings i).x = (newtonSeq2 analysis settings i).x ∧
      (newtonSeq2 analysis' settings i).y = (newtonSeq2 analysis settings i).y := by
  induction i with
  | zero => constructor <;> simp [newtonSeq2]
  | succ j ih =>
    obtain ⟨ihx, ihy⟩ := ih
    have harg : ((newtonSeq2 analysis' settings j).x, (newtonSeq2 analysis' settings j).y) =
        ((newtonSeq2 analysis settings j).x, (newtonSeq2 analysis settings j).y) := by
      rw [ihx, ihy]
    cases hx : evaluateNumber analysis.gradient.x
        ((newtonSeq2 analysis settings j).x, (newtonSeq2 analysis settings j).y) with
    | none => constructor <;> simp [newtonSeq2, hg, hh, harg, ihx, ihy, hx]
    | some gx =>
      cases hy : evaluateNumber analysis.gradient.y
          ((newtonSeq2 analysis settings j).x, (newtonSeq2 analysis settings j).y) with
      | none => constructor <;> simp [newtonSeq2, hg, hh, harg, ihx, ihy, hx, hy]
      | some gy =>
        cases hxx : evaluateNumber analysis.hessian.xx
            ((newtonSeq2 analysis settings j).x, (newtonSeq2 analysis settings j).y) with
        | none => constructor <;> simp [newtonSeq2, hg, hh, harg, ihx, ihy, hx, hy, hxx]
        | some vxx =>
          cases hxy : evaluateNumber analysis.hessian.xy
              ((newtonSeq2 analysis settings j).x, (newtonSeq2 analysis settings j).y) with
          | none =>
            constructor <;> simp [newtonSeq2, hg, hh, harg, ihx, ihy, hx, hy, hxx, hxy]
          | some vxy =>
            cases hyx : evaluateNumber analysis.hessian.yx
                ((newtonSeq2 analysis settings j).x, (newtonSeq2 analysis settings j).y) with
            | none =>
              constructor <;>
                simp [newtonSeq2, hg, hh, harg, ihx, ihy, hx, hy, hxx, hxy, hyx]
            | some vyx =>
              cases hyy : evaluateNumber analysis.hessian.yy
                  ((newtonSeq2 analysis settings j).x, (newtonSeq2 analysis settings j).y) with
              | none =>
                constructor <;>
                  simp [newtonSeq2, hg, hh, harg, ihx, ihy, hx, hy, hxx, hxy, hyx, hyy]
              | some vyy =>
                cases hinv : invert2x2 vxx vxy vyx vyy with
                | none =>
                  constructor <;>
                    simp [newtonSeq2, hg, hh, harg, ihx, ihy, hx, hy, hxx, hxy, hyx, hyy, hinv]
                | some inv =>
                  constructor <;>
                    simp [newtonSeq2, hg, hh, harg, ihx, ihy, hx, hy, hxx, hxy, hyx, hyy, hinv]

/-- One valid 1D Gradient Descent step, componentwise. -/
lemma gdSeq1_step {analysis : Analysis1} {settings : Settings} {i : ℕ} {g : ℚ}
    (hg : evaluateNumber analysis.gradient (gdSeq1 analysis settings i).x = some g) :
    (gdSeq1 analysis settings (i + 1)).x =
      (gdSeq1 analysis settings i).x - settings.learningRate * g +
        (if i = 0 then 0 else settings.momentum *
          ((gdSeq1 analysis settings i).x - (gdSeq1 analysis settings i).xprev)) ∧
    (gdSeq1 analysis settings (i + 1)).y =
      ensureValue (evaluateNumber analysis.fn (gdSeq1 analysis settings (i + 1)).x)
        (gdSeq1 analysis settings i).y := by
  constructor <;> simp [gdSeq1, hg]

/-- A stalled 1D Gradient Descent step carries position and objective. -/
lemma gdSeq1_stall {analysis : Analysis1} {settings : Settings} {i : ℕ}
    (hg : evaluateNumber analysis.gradient (gdSeq1 analysis settings i).x = none) :
    (gdSeq1 analysis settings (i + 1)).x = (gdSeq1 analysis settings i).x ∧
    (gdSeq1 analysis settings (i + 1)).y = (gdSeq1 analysis settings i).y := by
  constructor <;> simp [gdSeq1, hg]

/-- One valid 1D Newton step, componentwise. -/
lemma newtonSeq1_step {analysis : Analysis1} {settings : Settings} {i : ℕ} {g h : ℚ}
    (hg : evaluateNumber analysis.gradient (newtonSeq1 analysis settings i).x = some g)
    (hh : evaluateNumber analysis.hessian (newtonSeq1 analysis settings i).x = some h)
    (hbig : ¬ |h| < EPSILON) :
    (newtonSeq1 analysis settings (i + 1)).x =
      (newtonSeq1 analysis settings i).x - g / h ∧
    (newtonSeq1 analysis settings (i + 1)).y =
      ensureValue (evaluateNumber analysis.fn (newtonSeq1 analysis settings (i + 1)).x)
        (newtonSeq1 analysis settings i).y := by
  constructor <;> simp [newtonSeq1, hg, hh, hbig]

/-- A stalled 1D Newton step leaves the state unchanged. -/
lemma newtonSeq1_stall {analysis : Analysis1} {settings : Settings} {i : ℕ}
    (hcond : evaluateNumber analysis.gradient (newtonSeq1 analysis settings i).x = none ∨
      evaluateNumber analysis.hessian (newtonSeq1 analysis settings i).x = none ∨
      ∃ hv, evaluateNumber analysis.hessian (newtonSeq1 analysis settings i).x = some hv ∧
        |hv| < EPSILON) :
    newtonSeq1 analysis settings (i + 1) = newtonSeq1 analysis settings i := by
  rcases hcond with hg | hh | ⟨hv, hh, hsmall⟩
  · cases hh : evaluateNumber analysis.hessian (newtonSeq1 analysis settings i).x <;>
      simp [newtonSeq1, hg, hh]
  · cases hg : evaluateNumber analysis.gradient (newtonSeq1 analysis settings i).x <;>
      simp [newtonSeq1, hg, hh]
  · cases hg : evaluateNumber analysis.gradient (newtonSeq1 analysis settings i).x <;>
      simp [newtonSeq1, hg, hh, hsmall]

/-- One valid 2D Gradient Descent step, componentwise. -/
lemma gdSeq2_step {analysis : Analysis2} {settings : Settings} {i : ℕ} {gx gy : ℚ}
    (hgx : evaluateNumber analysis.gradient.x
      ((gdSeq2 analysis settings i).x, (gdSeq2 analysis settings i).y) = some gx)
    (hgy : evaluateNumber analysis.gradient.y
      ((gdSeq2 analysis settings i).x, (gdSeq2 analysis settings i).y) = some gy) :
    (gdSeq2 analysis settings (i + 1)).x =
      (gdSeq2 analysis settings i).x - settings.learningRate * gx +
        (if i = 0 then 0 else settings.momentum *
          ((gdSeq2 analysis settings i).x - (gdSeq2 analysis settings i).xprev)) ∧
    (gdSeq2 analysis settings (i + 1)).y =
      (gdSeq2 analysis settings i).y - settings.learningRate * gy +
        (if i = 0 then 0 else settings.momentum *
          ((gdSeq2 analysis settings i).y - (gdSeq2 analysis settings i).yprev)) ∧
    (gdSeq2 analysis settings (i + 1)).z =
      ensureValue (evaluateNumber analysis.fn
          ((gdSeq2 analysis settings (i + 1)).x, (gdSeq2 analysis settings (i + 1)).y))
        (gdSeq2 analysis settings i).z := by
  refine ⟨?_, ?_, ?_⟩ <;> simp [gdSeq2, hgx, hgy]

/-- A stalled 2D Gradient Descent step carries position and objective. -/
lemma gdSeq2_stall {analysis : Analysis2} {settings : Settings} {i : ℕ}
    (hcond : evaluateNumber analysis.gradient.x
        ((gdSeq2 analysis settings i).x, (gdSeq2 analysis settings i).y) = none ∨
      evaluateNumber analysis.gradient.y
        ((gdSeq2 analysis settings i).x, (gdSeq2 analysis settings i).y) = none) :
    (gdSeq2 analysis settings (i + 1)).x = (gdSeq2 analysis settings i).x ∧
    (gdSeq2 analysis settings (i + 1)).y = (gdSeq2 analysis settings i).y ∧
    (gdSeq2 analysis settings (i + 1)).z = (gdSeq2 analysis settings i).z := by
  rcases hcond with hgx | hgy
  · cases hgy : evaluateNumber analysis.gradient.y
        ((gdSeq2 analysis settings i).x, (gdSeq2 analysis settings i).y) <;>
      refine ⟨?_, ?_, ?_⟩ <;> simp [gdSeq2, hgx, hgy]
  · cases hgx : evaluateNumber analysis.gradient.x
        ((gdSeq2 analysis settings i).x, (gdSeq2 analysis settings i).y) <;>
      refine ⟨?_, ?_, ?_⟩ <;> simp [gdSeq2, hgx, hgy]

/-- One valid Adam step, componentwise: moment updates, bias correction with
the `EPSILON` guard on the correction denominators, and the position update
through `sqrtFn` and `ADAM_EPSILON`. -/
lemma adamSeq2_step {sqrtFn : ℚ → ℚ} {analysis : Analysis2} {settings : Settings}
    {i : ℕ} {gx gy : ℚ}
    (hgx : evaluateNumber analysis.gradient.x
      ((adamSeq2 sqrtFn analysis settings i).x, (adamSeq2 sqrtFn analysis settings i).y) =
      some gx)
    (hgy : evaluateNumber analysis.gradient.y
      ((adamSeq2 sqrtFn analysis settings i).x, (adamSeq2 sqrtFn analysis settings i).y) =
      some gy) :
    (adamSeq2 sqrtFn analysis settings (i + 1)).mx =
      settings.beta1 * (adamSeq2 sqrtFn analysis settings i).mx + (1 - settings.beta1) * gx ∧
    (adamSeq2 sqrtFn analysis settings (i + 1)).my =
      settings.beta1 * (adamSeq2 sqrtFn analysis settings i).my + (1 - settings.beta1) * gy ∧
    (adamSeq2 sqrtFn analysis settings (i + 1)).vx =
      settings.beta2 * (adamSeq2 sqrtFn analysis settings i).vx +
        (1 - settings.beta2) * gx * gx ∧
    (adamSeq2 sqrtFn analysis settings (i + 1)).vy =
      settings.beta2 * (adamSeq2 sqrtFn analysis settings i).vy +
        (1 - settings.beta2) * gy * gy ∧
    (adamSeq2 sqrtFn analysis settings (i + 1)).x =
      (adamSeq2 sqrtFn analysis settings i).x - settings.learningRate *
        ((adamSeq2 sqrtFn analysis settings (i + 1)).mx /
          (if EPSILON < |1 - settings.beta1 ^ (i + 1)| then 1 - settings.beta1 ^ (i + 1)
            else EPSILON)) /
        (sqrtFn ((adamSeq2 sqrtFn analysis settings (i + 1)).vx /
          (if EPSILON < |1 - settings.beta2 ^ (i + 1)| then 1 - settings.beta2 ^ (i + 1)
            else EPSILON)) + ADAM_EPSILON) ∧
    (adamSeq2 sqrtFn analysis settings (i + 1)).y =
      (adamSeq2 sqrtFn analysis settings i).y - settings.learningRate *
        ((adamSeq2 sqrtFn analysis settings (i + 1)).my /
          (if EPSILON < |1 - settings.beta1 ^ (i + 1)| then 1 - settings.beta1 ^ (i + 1)
            else EPSILON)) /
        (sqrtFn ((adamSeq2 sqrtFn analysis settings (i + 1)).vy /
          (if EPSILON < |1 - settings.beta2 ^ (i + 1)| then 1 - settings.beta2 ^ (i + 1)
            else EPSILON)) + ADAM_EPSILON) ∧
    (adamSeq2 sqrtFn analysis settings (i + 1)).z =
      ensureValue (evaluateNumber analysis.fn
          ((adamSeq2 sqrtFn analysis settings (i + 1)).x,
            (adamSeq2 sqrtFn analysis settings (i + 1)).y))
        (adamSeq2 sqrtFn analysis settings i).z := by
  refine ⟨?_, ?_, ?_, ?_, ?_, ?_, ?_⟩ <;> simp [adamSeq2, hgx, hgy]

/-- A stalled Adam step leaves the whole state (moments included)
unchanged. -/
lemma adamSeq2_stall {sqrtFn : ℚ → ℚ} {analysis : Analysis2} {settings : Settings}
    {i : ℕ}
    (hcond : evaluateNumber analysis.gradient.x
        ((adamSeq2 sqrtFn analysis settings i).x, (adamSeq2 sqrtFn analysis settings i).y) =
        none ∨
      evaluateNumber analysis.gradient.y
        ((adamSeq2 sqrtFn analysis settings i).x, (adamSeq2 sqrtFn analysis settings i).y) =
        none) :
    adamSeq2 sqrtFn analysis settings (i + 1) = adamSeq2 sqrtFn analysis settings i := by
  rcases hcond with hgx | hgy
  · cases hgy : evaluateNumber analysis.gradient.y
        ((adamSeq2 sqrtFn analysis settings i).x,
          (adamSeq2 sqrtFn analysis settings i).y) <;>
      simp [adamSeq2, hgx, hgy]
  · cases hgx : evaluateNumber analysis.gradient.x
        ((adamSeq2 sqrtFn analysis settings i).x,
          (adamSeq2 sqrtFn analysis settings i).y) <;>
      simp [adamSeq2, hgx, hgy]

/-- One valid 2D Newton step, componentwise. -/
lemma newtonSeq2_step {analysis : Analysis2} {settings : Settings} {i : ℕ}
    {gx gy hxx hxy hyx hyy : ℚ} {inv : Mat2}
    (hgx : evaluateNumber analysis.gradient.x
      ((newtonSeq2 analysis settings i).x, (newtonSeq2 analysis settings i).y) = some gx)
    (hgy : evaluateNumber analysis.gradient.y
      ((newtonSeq2 analysis settings i).x, (newtonSeq2 analysis settings i).y) = some gy)
    (hhxx : evaluateNumber analysis.hessian.xx
      ((newtonSeq2 analysis settings i).x, (newtonSeq2 analysis settings i).y) = some hxx)
    (hhxy : evaluateNumber analysis.hessian.xy
      ((newtonSeq2 analysis settings i).x, (newtonSeq2 analysis settings i).y) = some hxy)
    (hhyx : evaluateNumber analysis.hessian.yx
      ((newtonSeq2 analysis settings i).x, (newtonSeq2 analysis settings i).y) = some hyx)
    (hhyy : evaluateNumber analysis.hessian.yy
      ((newtonSeq2 analysis settings i).x, (newtonSeq2 analysis settings i).y) = some hyy)
    (hinv : invert2x2 hxx hxy hyx hyy = some inv) :
    (newtonSeq2 analysis settings (i + 1)).x =
      (newtonSeq2 analysis settings i).x - (inv.xx * gx + inv.xy * gy) ∧
    (newtonSeq2 analysis settings (i + 1)).y =
      (newtonSeq2 analysis settings i).y - (inv.yx * gx + inv.yy * gy) ∧
    (newtonSeq2 analysis settings (i + 1)).z =
      ensureValue (evaluateNumber analysis.fn
          ((newtonSeq2 analysis settings (i + 1)).x, (newtonSeq2 analysis settings (i + 1)).y))
        (newtonSeq2 analysis settings i).z := by
  refine ⟨?_, ?_, ?_⟩ <;> simp [newtonSeq2, hgx, hgy, hhxx, hhxy, hhyx, hhyy, hinv]

/-- A stalled 2D Newton step (any invalid scalar, or a singular Hessian)
leaves the state unchanged. -/
lemma newtonSeq2_stall {analysis : Analysis2} {settings : Settings} {i : ℕ}
    (hcond : evaluateNumber analysis.gradient.x
        ((newtonSeq2 analysis settings i).x, (newtonSeq2 analysis settings i).y) = none ∨
      evaluateNumber analysis.gradient.y
        ((newtonSeq2 analysis settings i).x, (newtonSeq2 analysis settings i).y) = none ∨
      evaluateNumber analysis.hessian.xx
        ((newtonSeq2 analysis settings i).x, (newtonSeq2 analysis settings i).y) = none ∨
      evaluateNumber analysis.hessian.xy
        ((newtonSeq2 analysis settings i).x, (newtonSeq2 analysis settings i).y) = none ∨
      evaluateNumber analysis.hessian.yx
        ((newtonSeq2 analysis settings i).x, (newtonSeq2 analysis settings i).y) = none ∨
      evaluateNumber analysis.hessian.yy
        ((newtonSeq2 analysis settings i).x, (newtonSeq2 analysis settings i).y) = none ∨
      ∃ hxx hxy hyx hyy,
        evaluateNumber analysis.hessian.xx
          ((newtonSeq2 analysis settings i).x, (newtonSeq2 analysis settings i).y) =
          some hxx ∧
        evaluateNumber analysis.hessian.xy
          ((newtonSeq2 analysis settings i).x, (newtonSeq2 analysis settings i).y) =
          some hxy ∧
        evaluateNumber analysis.hessian.yx
          ((newtonSeq2 analysis settings i).x, (newtonSeq2 analysis settings i).y) =
          some hyx ∧
        evaluateNumber analysis.hessian.yy
          ((newtonSeq2 analysis settings i).x, (newtonSeq2 analysis settings i).y) =
          some hyy ∧
        invert2x2 hxx hxy hyx hyy = none) :
    newtonSeq2 analysis settings (i + 1) = newtonSeq2 analysis settings i := by
  rcases hcond with h | h | h | h | h | h | ⟨a, b, c, d, ha, hb, hc, hd, hinv⟩
  · simp [newtonSeq2, h]
  · cases h1 : evaluateNumber analysis.gradient.x
        ((newtonSeq2 analysis settings i).x, (newtonSeq2 analysis settings i).y) <;>
      simp [newtonSeq2, h, h1]
  · cases h1 : evaluateNumber analysis.gradient.x
        ((newtonSeq2 analysis settings i).x, (newtonSeq2 analysis settings i).y) <;>
      cases h2 : evaluateNumber analysis.gradient.y
        ((newtonSeq2 analysis settings i).x, (newtonSeq2 analysis settings i).y) <;>
      simp [newtonSeq2, h, h1, h2]
  · cases h1 : evaluateNumber analysis.gradient.x
        ((newtonSeq2 analysis settings i).x, (newtonSeq2 analysis settings i).y) <;>
      cases h2 : evaluateNumber analysis.gradient.y
        ((newtonSeq2 analysis settings i).x, (newtonSeq2 analysis settings i).y) <;>
      cases h3 : evaluateNumber analysis.hessian.xx
        ((newtonSeq2 analysis settings i).x, (newtonSeq2 analysis settings i).y) <;>
      simp [newtonSeq2, h, h1, h2, h3]
  · cases h1 : evaluateNumber analysis.gradient.x
        ((newtonSeq2 analysis settings i).x, (newtonSeq2 analysis settings i).y) <;>
      cases h2 : evaluateNumber analysis.gradient.y
        ((newtonSeq2 analysis settings i).x, (newtonSeq2 analysis settings i).y) <;>
      cases h3 : evaluateNumber analysis.hessian.xx
        ((newtonSeq2 analysis settings i).x, (newtonSeq2 analysis settings i).y) <;>
      cases h4 : evaluateNumber analysis.hessian.xy
        ((newtonSeq2 analysis settings i).x, (newtonSeq2 analysis settings i).y) <;>
      simp [newtonSeq2, h, h1, h2, h3, h4]
  · cases h1 : evaluateNumber analysis.gradient.x
        ((newtonSeq2 analysis settings i).x, (newtonSeq2 analysis settings i).y) <;>
      cases h2 : evaluateNumber analysis.gradient.y
        ((newtonSeq2 analysis settings i).x, (newtonSeq2 analysis settings i).y) <;>
      cases h3 : evaluateNumber analysis.hessian.xx
        ((newtonSeq2 analysis settings i).x, (newtonSeq2 analysis settings i).y) <;>
      cases h4 : evaluateNumber analysis.hessian.xy
        ((newtonSeq2 analysis settings i).x, (newtonSeq2 analysis settings i).y) <;>
      cases h5 : evaluateNumber analysis.hessian.yx
        ((newtonSeq2 analysis settings i).x, (newtonSeq2 analysis settings i).y) <;>
      simp [newtonSeq2, h, h1, h2, h3, h4, h5]
  · cases h1 : evaluateNumber analysis.gradient.x
        ((newtonSeq2 analysis settings i).x, (newtonSeq2 analysis settings i).y) <;>
      cases h2 : evaluateNumber analysis.gradient.y
        ((newtonSeq2 analysis settings i).x, (newtonSeq2 analysis settings i).y) <;>
      simp [newtonSeq2, h1, h2, ha, hb, hc, hd, hinv]

/-! ### Concrete instances used by witnesses and counterexamples -/

/-- The parabola `f(x) = x^2` with its exact derivative and Hessian, as the
analysis adapter would produce for the string `"x^2"`. -/
def sqAnalysis1 : Analysis1 :=
  ⟨fun x => .num (some (x * x)), fun x => .num (some (2 * x)), fun _ => .num (some 2)⟩

/-- The paraboloid `f(x, y) = x^2 + y^2` with exact derivatives. -/
def sqAnalysis2 : Analysis2 :=
  ⟨fun p => .num (some (p.1 * p.1 + p.2 * p.2)),
    ⟨fun p => .num (some (2 * p.1)), fun p => .num (some (2 * p.2))⟩,
    ⟨fun _ => .num (some 2), fun _ => .num (some 0),
      fun _ => .num (some 0), fun _ => .num (some 2)⟩⟩

/-- A 1D analysis whose every evaluator throws. -/
def errAnalysis1 : Analysis1 := ⟨fun _ => .err, fun _ => .err, fun _ => .err⟩

/-- A 2D analysis whose every evaluator throws. -/
def errAnalysis2 : Analysis2 :=
  ⟨fun _ => .err, ⟨fun _ => .err, fun _ => .err⟩,
    ⟨fun _ => .err, fun _ => .err, fun _ => .err, fun _ => .err⟩⟩

/-- An evaluator returning a non-number value whose numeric coercion is the
finite number `2` (for instance the string `"2"`). -/
def nonNumericTwo : ℚ → RawResult := fun _ => RawResult.other (some 2)

/-- Gradient Descent settings: 2 steps from `x = 1`, learning rate `1/10`,
momentum `1/2`. -/
def gdSettings1 : Settings := ⟨"Gradient Descent", some 2, 1, 0, 1 / 10, 1 / 2, 9 / 10, 99 / 100⟩

/-- Settings for 2D Gradient Descent from `(1, 1)`. -/
def gdSettings2 : Settings := ⟨"Gradient Descent", some 2, 1, 1, 1 / 10, 1 / 2, 9 / 10, 99 / 100⟩

/-- Newton settings: 2 steps from `(1, 1)`. -/
def newtonSettings : Settings := ⟨"Newton", some 2, 1, 1, 1 / 10, 0, 9 / 10, 99 / 100⟩

/-- Adam settings: 2 steps from `(1, 1)`. -/
def adamSettings : Settings := ⟨"Adam", some 2, 1, 1, 1 / 10, 0, 9 / 10, 99 / 100⟩

/-- Settings with an unrecognised optimiser type. -/
def fooSettings : Settings := ⟨"Foo", some 2, 1, 1, 1 / 10, 0, 9 / 10, 99 / 100⟩

/-! ### Claims -/

/-- C5: `invert2x2` reports singular exactly when the determinant's absolute
value is below `EPSILON` (a non-finite determinant cannot arise in exact
rational arithmetic), and otherwise returns the closed-form inverse, which
is a left inverse of `[[a, b], [c, d]]`. -/
theorem c5_invert2x2_correct :
    ∀ a b c d : ℚ,
      (invert2x2 a b c d = none ↔ |a * d - b * c| < EPSILON) ∧
      ∀ M : Mat2, invert2x2 a b c d = some M →
        M.xx = d / (a * d - b * c) ∧ M.xy = -b / (a * d - b * c) ∧
        M.yx = -c / (a * d - b * c) ∧ M.yy = a / (a * d - b * c) ∧
        M.xx * a + M.xy * c = 1 ∧ M.xx * b + M.xy * d = 0 ∧
        M.yx * a + M.yy * c = 0 ∧ M.yx * b + M.yy * d = 1 := by
  intro a b c d
  constructor
  · constructor
    · intro h
      by_cases hd : |a * d - b * c| < EPSILON
      · exact hd
      · simp [invert2x2, hd] at h
    · intro hd
      simp [invert2x2, hd]
  · intro M hM
    have hd : ¬ |a * d - b * c| < EPSILON := by
      intro hcon
      simp [invert2x2, hcon] at hM
    have hdet : a * d - b * c ≠ 0 := by
      intro h0
      apply hd
      rw [h0]
      norm_num [EPSILON]
    have hMval : M = ⟨d * (1 / (a * d - b * c)), -b * (1 / (a * d - b * c)),
        -c * (1 / (a * d - b * c)), a * (1 / (a * d - b * c))⟩ := by
      simp only [invert2x2, if_neg hd, Option.some.injEq] at hM
      exact hM.symm
    subst hMval
    refine ⟨mul_one_div _ _, mul_one_div _ _, mul_one_div _ _, mul_one_div _ _,
      ?_, ?_, ?_, ?_⟩ <;> field_simp <;> ring

/-- C5 witness: inverting the diagonal matrix `[[2, 0], [0, 2]]`. -/
theorem c5_witness :
    invert2x2 2 0 0 2 = some ⟨1 / 2, 0, 0, 1 / 2⟩ ∧
    (Mat2.mk (1 / 2) 0 0 (1 / 2)).xx = (2 : ℚ) / (2 * 2 - 0 * 0) ∧
    (Mat2.mk (1 / 2) 0 0 (1 / 2)).xx * 2 + (Mat2.mk (1 / 2) 0 0 (1 / 2)).xy * 0 = 1 := by
  have hinv : invert2x2 2 0 0 2 = some ⟨1 / 2, 0, 0, 1 / 2⟩ := by
    norm_num [invert2x2, EPSILON]
  have h := (c5_invert2x2_correct 2 0 0 2).2 ⟨1 / 2, 0, 0, 1 / 2⟩ hinv
  exact ⟨hinv, h.1, h.2.2.2.2.1⟩

/-- C6 counterexample: an evaluator returning the non-numeric value `"2"`
(numeric coercion `2`) yields `some 2`, not the invalid sentinel, although
the claim requires every non-numeric return to map to the sentinel. -/
theorem c6_counterexample :
    nonNumericTwo 0 = RawResult.other (some 2) ∧
    evaluateNumber nonNumericTwo 0 = some 2 ∧
    evaluateNumber nonNumericTwo 0 ≠ none := by
  refine ⟨rfl, rfl, by simp [evaluateNumber, nonNumericTwo]⟩

/-- C6 (amended): the safe evaluation is total (never raises); a thrown
error, a numeric result that is `NaN`/infinite, or a non-numeric result
whose numeric coercion is `NaN`/infinite all yield the invalid sentinel;
a finite numeric result is returned as is, and a non-numeric result with a
finite numeric coercion is returned as that coercion (not the sentinel). -/
theorem c6_safe_evaluation :
    ∀ (P : Type) (compiled : P → RawResult) (scope : P),
      (compiled scope = RawResult.err → evaluateNumber compiled scope = none) ∧
      (compiled scope = RawResult.num none → evaluateNumber compiled scope = none) ∧
      (∀ q : ℚ, compiled scope = RawResult.num (some q) →
        evaluateNumber compiled scope = some q) ∧
      (compiled scope = RawResult.other none → evaluateNumber compiled scope = none) ∧
      (∀ q : ℚ, compiled scope = RawResult.other (some q) →
        evaluateNumber compiled scope = some q) := by
  intro P compiled scope
  refine ⟨fun h => ?_, fun h => ?_, fun q h => ?_, fun h => ?_, fun q h => ?_⟩ <;>
    simp [evaluateNumber, h]

/-- C6 witness: the objective evaluator of `x^2` at `x = 3`. -/
theorem c6_witness : evaluateNumber sqAnalysis1.fn 3 = some 9 :=
  (c6_safe_evaluation ℚ sqAnalysis1.fn 3).2.2.1 9 (by norm_num [sqAnalysis1])

/-- C7: an unrecognised `optimiserType` makes both trajectory functions fail
with the configuration error (no trajectory is produced). -/
theorem c7_unrecognised_type_fails :
    (∀ (analysis : Analysis1) (settings : Settings),
      settings.optimiserType ≠ "Gradient Descent" →
      settings.optimiserType ≠ "Newton" →
      computeTrajectory1D analysis settings =
        Except.error ("Unsupported optimiser type: " ++ settings.optimiserType)) ∧
    (∀ (sqrtFn : ℚ → ℚ) (analysis : Analysis2) (settings : Settings),
      settings.optimiserType ≠ "Gradient Descent" →
      settings.optimiserType ≠ "Adam" →
      settings.optimiserType ≠ "Newton" →
      computeTrajectory2D sqrtFn analysis settings =
        Except.error ("Unsupported optimiser type: " ++ settings.optimiserType)) := by
  constructor
  · intro analysis settings h1 h2
    simp [computeTrajectory1D, h1, h2]
  · intro sqrtFn analysis settings h1 h2 h3
    simp [computeTrajectory2D, h1, h2, h3]

/-- C7 witness: the optimiser type `"Foo"` is rejected in 1D and 2D. -/
theorem c7_witness :
    computeTrajectory1D sqAnalysis1 fooSettings =
      Except.error ("Unsupported optimiser type: " ++ fooSettings.optimiserType) ∧
    computeTrajectory2D id sqAnalysis2 fooSettings =
      Except.error ("Unsupported optimiser type: " ++ fooSettings.optimiserType) :=
  ⟨c7_unrecognised_type_fails.1 sqAnalysis1 fooSettings (by decide) (by decide),
    c7_unrecognised_type_fails.2 id sqAnalysis2 fooSettings (by decide) (by decide) (by decide)⟩

/-- C1 counterexample: with an objective evaluator that always throws, the
trajectory is produced (Gradient Descent, initial `x = 1`) but the objective
recorded at index 0 is the number `0`, while the safe evaluation of the
objective at the initial point is the invalid sentinel — so the recorded
value does not equal the safely evaluated objective. -/
theorem c1_counterexample :
    (computeTrajectory1D errAnalysis1 gdSettings1).map
        (fun t => some (t.y.getD 0 0)) = Except.ok (some (0 : ℚ)) ∧
    evaluateNumber errAnalysis1.fn gdSettings1.initialX = none ∧
    (some (0 : ℚ) ≠ (none : Option ℚ)) := by
  refine ⟨?_, rfl, by simp⟩
  rw [computeTrajectory1D_gd rfl]
  simp only [Except.map, Except.ok.injEq, Option.some.injEq]
  rw [getD_ofFn (fun j => (gdSeq1 errAnalysis1 gdSettings1 j).y) 0 (Nat.succ_pos _)]
  simp [gdSeq1, evaluateNumber, errAnalysis1, ensureValue]

/-- C1 (amended): with a recognised `optimiserType`, the trajectory is
produced with arrays of length exactly `numSteps + 1` (`numSteps` defaulting
to 20), position 0 equals the initial point, and the objective at index 0
equals the safely evaluated objective at the initial point whenever that
evaluation is valid (when it is invalid, the recorded objective is `0`). -/
theorem c1_shape_and_initial_point :
    (∀ (analysis : Analysis1) (settings : Settings),
      settings.optimiserType = "Gradient Descent" ∨ settings.optimiserType = "Newton" →
      DEFAULT_NUM_STEPS = 20 ∧
      ∃ t, computeTrajectory1D analysis settings = Except.ok t ∧
        t.x.length = settings.numSteps.getD DEFAULT_NUM_STEPS + 1 ∧
        t.y.length = settings.numSteps.getD DEFAULT_NUM_STEPS + 1 ∧
        t.x.getD 0 0 = settings.initialX ∧
        (∀ v, evaluateNumber analysis.fn settings.initialX = some v →
          t.y.getD 0 0 = v) ∧
        (evaluateNumber analysis.fn settings.initialX = none → t.y.getD 0 0 = 0)) ∧
    (∀ (sqrtFn : ℚ → ℚ) (analysis : Analysis2) (settings : Settings),
      settings.optimiserType = "Gradient Descent" ∨ settings.optimiserType = "Adam" ∨
        settings.optimiserType = "Newton" →
      ∃ t, computeTrajectory2D sqrtFn analysis settings = Except.ok t ∧
        t.x.length = settings.numSteps.getD DEFAULT_NUM_STEPS + 1 ∧
        t.y.length = settings.numSteps.getD DEFAULT_NUM_STEPS + 1 ∧
        t.z.length = settings.numSteps.getD DEFAULT_NUM_STEPS + 1 ∧
        t.x.getD 0 0 = settings.initialX ∧
        t.y.getD 0 0 = settings.initialY ∧
        (∀ v, evaluateNumber analysis.fn (settings.initialX, settings.initialY) = some v →
          t.z.getD 0 0 = v) ∧
        (evaluateNumber analysis.fn (settings.initialX, settings.initialY) = none →
          t.z.getD 0 0 = 0)) := by
  constructor
  · intro analysis settings hty
    refine ⟨rfl, ?_⟩
    rcases hty with h | h
    · refine ⟨_, computeTrajectory1D_gd h, by simp, by simp, ?_, ?_, ?_⟩
      · rw [getD_ofFn (fun j => (gdSeq1 analysis settings j).x) 0 (Nat.succ_pos _)]
        simp [gdSeq1]
      · intro v hv
        rw [getD_ofFn (fun j => (gdSeq1 analysis settings j).y) 0 (Nat.succ_pos _)]
        simp [gdSeq1, ensureValue, hv]
      · intro hv
        rw [getD_ofFn (fun j => (gdSeq1 analysis settings j).y) 0 (Nat.succ_pos _)]
        simp [gdSeq1, ensureValue, hv]
    · refine ⟨_, computeTrajectory1D_newton h, by simp, by simp, ?_, ?_, ?_⟩
      · rw [getD_ofFn (fun j => (newtonSeq1 analysis settings j).x) 0 (Nat.succ_pos _)]
        simp [newtonSeq1]
      · intro v hv
        rw [getD_ofFn (fun j => (newtonSeq1 analysis settings j).y) 0 (Nat.succ_pos _)]
        simp [newtonSeq1, ensureValue, hv]
      · intro hv
        rw [getD_ofFn (fun j => (newtonSeq1 analysis settings j).y) 0 (Nat.succ_pos _)]
        simp [newtonSeq1, ensureValue, hv]
  · intro sqrtFn analysis settings hty
    rcases hty with h | h | h
    · refine ⟨_, computeTrajectory2D_gd h, by simp, by simp, by simp, ?_, ?_, ?_, ?_⟩
      · rw [getD_ofFn (fun j => (gdSeq2 analysis settings j).x) 0 (Nat.succ_pos _)]
        simp [gdSeq2]
      · rw [getD_ofFn (fun j => (gdSeq2 analysis settings j).y) 0 (Nat.succ_pos _)]
        simp [gdSeq2]
      · intro v hv
        rw [getD_ofFn (fun j => (gdSeq2 analysis settings j).z) 0 (Nat.succ_pos _)]
        simp [gdSeq2, ensureValue, hv]
      · intro hv
        rw [getD_ofFn (fun j => (gdSeq2 analysis settings j).z) 0 (Nat.succ_pos _)]
        simp [gdSeq2, ensureValue, hv]
    · refine ⟨_, computeTrajectory2D_adam h, by simp, by simp, by simp, ?_, ?_, ?_, ?_⟩
      · rw [getD_ofFn (fun j => (adamSeq2 sqrtFn analysis settings j).x) 0 (Nat.succ_pos _)]
        simp [adamSeq2]
      · rw [getD_ofFn (fun j => (adamSeq2 sqrtFn analysis settings j).y) 0 (Nat.succ_pos _)]
        simp [adamSeq2]
      · intro v hv
        rw [getD_ofFn (fun j => (adamSeq2 sqrtFn analysis settings j).z) 0 (Nat.succ_pos _)]
        simp [adamSeq2, ensureValue, hv]
      · intro hv
        rw [getD_ofFn (fun j => (adamSeq2 sqrtFn analysis settings j).z) 0 (Nat.succ_pos _)]
        simp [adamSeq2, ensureValue, hv]
    · refine ⟨_, computeTrajectory2D_newton h, by simp, by simp, by simp, ?_, ?_, ?_, ?_⟩
      · rw [getD_ofFn (fun j => (newtonSeq2 analysis settings j).x) 0 (Nat.succ_pos _)]
        simp [newtonSeq2]
      · rw [getD_ofFn (fun j => (newtonSeq2 analysis settings j).y) 0 (Nat.succ_pos _)]
        simp [newtonSeq2]
      · intro v hv
        rw [getD_ofFn (fun j => (newtonSeq2 analysis settings j).z) 0 (Nat.succ_pos _)]
        simp [newtonSeq2, ensureValue, hv]
      · intro hv
        rw [getD_ofFn (fun j => (newtonSeq2 analysis settings j).z) 0 (Nat.succ_pos _)]
        simp [newtonSeq2, ensureValue, hv]

/-- C1 witness: Gradient Descent on `x^2` with `numSteps = 2` from `x = 1`. -/
theorem c1_witness :
    DEFAULT_NUM_STEPS = 20 ∧
    ∃ t, computeTrajectory1D sqAnalysis1 gdSettings1 = Except.ok t ∧
      t.x.length = 3 ∧ t.y.length = 3 ∧ t.x.getD 0 0 = 1 ∧
      (∀ v, evaluateNumber sqAnalysis1.fn gdSettings1.initialX = some v →
        t.y.getD 0 0 = v) ∧
      (evaluateNumber sqAnalysis1.fn gdSettings1.initialX = none → t.y.getD 0 0 = 0) := by
  obtain ⟨hd, t, ht, hx, hy, h0, hv, hn⟩ :=
    c1_shape_and_initial_point.1 sqAnalysis1 gdSettings1 (Or.inl rfl)
  exact ⟨hd, t, ht, by simpa [gdSettings1, DEFAULT_NUM_STEPS] using hx,
    by simpa [gdSettings1, DEFAULT_NUM_STEPS] using hy,
    by simpa [gdSettings1] using h0, hv, hn⟩

/-- C9: if every gradient evaluation is invalid, every position of the
trajectory equals the initial point and every objective value equals the
objective recorded at step 0, for every algorithm. -/
theorem c9_invalid_gradient_freezes :
    (∀ (analysis : Analysis1) (settings : Settings) (t : Traj1),
      computeTrajectory1D analysis settings = Except.ok t →
      (∀ p, evaluateNumber analysis.gradient p = none) →
      ∀ i, i ≤ settings.numSteps.getD DEFAULT_NUM_STEPS →
        t.x.getD i 0 = settings.initialX ∧ t.y.getD i 0 = t.y.getD 0 0) ∧
    (∀ (sqrtFn : ℚ → ℚ) (analysis : Analysis2) (settings : Settings) (t : Traj2),
      computeTrajectory2D sqrtFn analysis settings = Except.ok t →
      (∀ p, evaluateNumber analysis.gradient.x p = none) →
      (∀ p, evaluateNumber analysis.gradient.y p = none) →
      ∀ i, i ≤ settings.numSteps.getD DEFAULT_NUM_STEPS →
        t.x.getD i 0 = settings.initialX ∧ t.y.getD i 0 = settings.initialY ∧
          t.z.getD i 0 = t.z.getD 0 0) := by
  constructor
  · intro analysis settings t ht hg i hi
    have hi' : i < settings.numSteps.getD DEFAULT_NUM_STEPS + 1 := Nat.lt_succ_of_le hi
    have h0' : 0 < settings.numSteps.getD DEFAULT_NUM_STEPS + 1 := Nat.succ_pos _
    by_cases h1 : settings.optimiserType = "Gradient Descent"
    · obtain ⟨hx, hy⟩ := traj1_gd_getD h1 ht hi'
      obtain ⟨hx0, hy0⟩ := traj1_gd_getD h1 ht h0'
      rw [hx, hy, hy0, gdSeq1_stall_all hg i]
      exact ⟨by simp [gdSeq1], rfl⟩
    · by_cases h2 : settings.optimiserType = "Newton"
      · obtain ⟨hx, hy⟩ := traj1_newton_getD h2 ht hi'
        obtain ⟨hx0, hy0⟩ := traj1_newton_getD h2 ht h0'
        rw [hx, hy, hy0, newtonSeq1_stall_all hg i]
        exact ⟨by simp [newtonSeq1], rfl⟩
      · simp [computeTrajectory1D, h1, h2] at ht
  · intro sqrtFn analysis settings t ht hgx hgy i hi
    have hi' : i < settings.numSteps.getD DEFAULT_NUM_STEPS + 1 := Nat.lt_succ_of_le hi
    have h0' : 0 < settings.numSteps.getD DEFAULT_NUM_STEPS + 1 := Nat.succ_pos _
    by_cases h1 : settings.optimiserType = "Gradient Descent"
    · obtain ⟨hx, hy, hz⟩ := traj2_gd_getD h1 ht hi'
      obtain ⟨hx0, hy0, hz0⟩ := traj2_gd_getD h1 ht h0'
      rw [hx, hy, hz, hz0, gdSeq2_stall_all hgx i]
      exact ⟨by simp [gdSeq2], by simp [gdSeq2], rfl⟩
    · by_cases h2 : settings.optimiserType = "Adam"
      · obtain ⟨hx, hy, hz⟩ := traj2_adam_getD h2 ht hi'
        obtain ⟨hx0, hy0, hz0⟩ := traj2_adam_getD h2 ht h0'
        rw [hx, hy, hz, hz0, adamSeq2_stall_all hgx i]
        exact ⟨by simp [adamSeq2], by simp [adamSeq2], rfl⟩
      · by_cases h3 : settings.optimiserType = "Newton"
        · obtain ⟨hx, hy, hz⟩ := traj2_newton_getD h3 ht hi'
          obtain ⟨hx0, hy0, hz0⟩ := traj2_newton_getD h3 ht h0'
          rw [hx, hy, hz, hz0, newtonSeq2_stall_all hgx i]
          exact ⟨by simp [newtonSeq2], by simp [newtonSeq2], rfl⟩
        · simp [computeTrajectory2D, h1, h2, h3] at ht

/-- C9 witness: Gradient Descent with an always-throwing analysis keeps the
trajectory at the initial point `x = 1` through step 2. -/
theorem c9_witness :
    ∃ t, computeTrajectory1D errAnalysis1 gdSettings1 = Except.ok t ∧
      t.x.getD 2 0 = 1 ∧ t.y.getD 2 0 = t.y.getD 0 0 := by
  refine ⟨_, computeTrajectory1D_gd rfl, ?_⟩
  have h := c9_invalid_gradient_freezes.1 errAnalysis1 gdSettings1 _
    (computeTrajectory1D_gd rfl) (fun p => rfl) 2 (by norm_num [gdSettings1])
  simpa [gdSettings1] using h

/-- C10: when the safe evaluation of the objective at the initial point is
invalid, the objective recorded at index 0 is the number `0` (not `NaN`, not
a sentinel — the output arrays contain plain numbers), and stalled steps
carry that `0` forward. -/
theorem c10_invalid_initial_objective_is_zero :
    (∀ (analysis : Analysis1) (settings : Settings) (t : Traj1),
      computeTrajectory1D analysis settings = Except.ok t →
      evaluateNumber analysis.fn settings.initialX = none →
      t.y.getD 0 0 = 0 ∧
      ((∀ p, evaluateNumber analysis.gradient p = none) →
        ∀ i, i ≤ settings.numSteps.getD DEFAULT_NUM_STEPS → t.y.getD i 0 = 0)) ∧
    (∀ (sqrtFn : ℚ → ℚ) (analysis : Analysis2) (settings : Settings) (t : Traj2),
      computeTrajectory2D sqrtFn analysis settings = Except.ok t →
      evaluateNumber analysis.fn (settings.initialX, settings.initialY) = none →
      t.z.getD 0 0 = 0 ∧
      ((∀ p, evaluateNumber analysis.gradient.x p = none) →
        ∀ i, i ≤ settings.numSteps.getD DEFAULT_NUM_STEPS → t.z.getD i 0 = 0)) := by
  constructor
  · intro analysis settings t ht hfn
    have h0' : 0 < settings.numSteps.getD DEFAULT_NUM_STEPS + 1 := Nat.succ_pos _
    by_cases h1 : settings.optimiserType = "Gradient Descent"
    · obtain ⟨hx0, hy0⟩ := traj1_gd_getD h1 ht h0'
      have hzero : t.y.getD 0 0 = 0 := by
        rw [hy0]; simp [gdSeq1, ensureValue, hfn]
      refine ⟨hzero, fun hg i hi => ?_⟩
      have hi' : i < settings.numSteps.getD DEFAULT_NUM_STEPS + 1 := Nat.lt_succ_of_le hi
      obtain ⟨hx, hy⟩ := traj1_gd_getD h1 ht hi'
      rw [hy, gdSeq1_stall_all hg i, ← hy0]
      exact hzero
    · by_cases h2 : settings.optimiserType = "Newton"
      · obtain ⟨hx0, hy0⟩ := traj1_newton_getD h2 ht h0'
        have hzero : t.y.getD 0 0 = 0 := by
          rw [hy0]; simp [newtonSeq1, ensureValue, hfn]
        refine ⟨hzero, fun hg i hi => ?_⟩
        have hi' : i < settings.numSteps.getD DEFAULT_NUM_STEPS + 1 := Nat.lt_succ_of_le hi
        obtain ⟨hx, hy⟩ := traj1_newton_getD h2 ht hi'
        rw [hy, newtonSeq1_stall_all hg i, ← hy0]
        exact hzero
      · simp [computeTrajectory1D, h1, h2] at ht
  · intro sqrtFn analysis settings t ht hfn
    have h0' : 0 < settings.numSteps.getD DEFAULT_NUM_STEPS + 1 := Nat.succ_pos _
    by_cases h1 : settings.optimiserType = "Gradient Descent"
    · obtain ⟨hx0, hy0, hz0⟩ := traj2_gd_getD h1 ht h0'
      have hzero : t.z.getD 0 0 = 0 := by
        rw [hz0]; simp [gdSeq2, ensureValue, hfn]
      refine ⟨hzero, fun hg i hi => ?_⟩
      have hi' : i < settings.numSteps.getD DEFAULT_NUM_STEPS + 1 := Nat.lt_succ_of_le hi
      obtain ⟨hx, hy, hz⟩ := traj2_gd_getD h1 ht hi'
      rw [hz, gdSeq2_stall_all hg i, ← hz0]
      exact hzero
    · by_cases h2 : settings.optimiserType = "Adam"
      · obtain ⟨hx0, hy0, hz0⟩ := traj2_adam_getD h2 ht h0'
        have hzero : t.z.getD 0 0 = 0 := by
          rw [hz0]; simp [adamSeq2, ensureValue, hfn]
        refine ⟨hzero, fun hg i hi => ?_⟩
        have hi' : i < settings.numSteps.getD DEFAULT_NUM_STEPS + 1 := Nat.lt_succ_of_le hi
        obtain ⟨hx, hy, hz⟩ := traj2_adam_getD h2 ht hi'
        rw [hz, adamSeq2_stall_all hg i, ← hz0]
        exact hzero
      · by_cases h3 : settings.optimiserType = "Newton"
        · obtain ⟨hx0, hy0, hz0⟩ := traj2_newton_getD h3 ht h0'
          have hzero : t.z.getD 0 0 = 0 := by
            rw [hz0]; simp [newtonSeq2, ensureValue, hfn]
          refine ⟨hzero, fun hg i hi => ?_⟩
          have hi' : i < settings.numSteps.getD DEFAULT_NUM_STEPS + 1 := Nat.lt_succ_of_le hi
          obtain ⟨hx, hy, hz⟩ := traj2_newton_getD h3 ht hi'
          rw [hz, newtonSeq2_stall_all hg i, ← hz0]
          exact hzero
        · simp [computeTrajectory2D, h1, h2, h3] at ht

/-- C10 witness: an always-throwing analysis under Gradient Descent records
objective `0` at index 0 and carries it through step 2. -/
theorem c10_witness :
    ∃ t, computeTrajectory1D errAnalysis1 gdSettings1 = Except.ok t ∧
      t.y.getD 0 0 = 0 ∧ t.y.getD 2 0 = 0 := by
  refine ⟨_, computeTrajectory1D_gd rfl, ?_⟩
  have h := c10_invalid_initial_objective_is_zero.1 errAnalysis1 gdSettings1 _
    (computeTrajectory1D_gd rfl) rfl
  exact ⟨h.1, h.2 (fun p => rfl) 2 (by norm_num [gdSettings1])⟩

/-- C2: Gradient Descent update rule. At every step with a finite gradient,
the next iterate is `x[i] − lr·g(x[i]) + momentum·(x[i] − x[i−1])`, with a
zero momentum term at `i = 0`; in 2D the update is applied per axis with
that axis's own prior displacement; with `momentum = 0` it is plain
steepest descent. -/
theorem c2_gradient_descent_update :
    (∀ (analysis : Analysis1) (settings : Settings) (t : Traj1),
      settings.optimiserType = "Gradient Descent" →
      computeTrajectory1D analysis settings = Except.ok t →
      ∀ i g, i < settings.numSteps.getD DEFAULT_NUM_STEPS →
        evaluateNumber analysis.gradient (t.x.getD i 0) = some g →
        t.x.getD (i + 1) 0 = t.x.getD i 0 - settings.learningRate * g +
          (if i = 0 then 0 else
            settings.momentum * (t.x.getD i 0 - t.x.getD (i - 1) 0)) ∧
        (settings.momentum = 0 →
          t.x.getD (i + 1) 0 = t.x.getD i 0 - settings.learningRate * g)) ∧
    (∀ (sqrtFn : ℚ → ℚ) (analysis : Analysis2) (settings : Settings) (t : Traj2),
      settings.optimiserType = "Gradient Descent" →
      computeTrajectory2D sqrtFn analysis settings = Except.ok t →
      ∀ i gx gy, i < settings.numSteps.getD DEFAULT_NUM_STEPS →
        evaluateNumber analysis.gradient.x (t.x.getD i 0, t.y.getD i 0) = some gx →
        evaluateNumber analysis.gradient.y (t.x.getD i 0, t.y.getD i 0) = some gy →
        (t.x.getD (i + 1) 0 = t.x.getD i 0 - settings.learningRate * gx +
          (if i = 0 then 0 else
            settings.momentum * (t.x.getD i 0 - t.x.getD (i - 1) 0))) ∧
        (t.y.getD (i + 1) 0 = t.y.getD i 0 - settings.learningRate * gy +
          (if i = 0 then 0 else
            settings.momentum * (t.y.getD i 0 - t.y.getD (i - 1) 0))) ∧
        (settings.momentum = 0 →
          t.x.getD (i + 1) 0 = t.x.getD i 0 - settings.learningRate * gx ∧
          t.y.getD (i + 1) 0 = t.y.getD i 0 - settings.learningRate * gy)) := by
  constructor
  · intro analysis settings t hty ht i g hi hg
    have hi1 : i < settings.numSteps.getD DEFAULT_NUM_STEPS + 1 := Nat.lt_succ_of_lt hi
    have hi2 : i + 1 < settings.numSteps.getD DEFAULT_NUM_STEPS + 1 := Nat.succ_lt_succ hi
    obtain ⟨hxi, _⟩ := traj1_gd_getD hty ht hi1
    obtain ⟨hxi1, _⟩ := traj1_gd_getD hty ht hi2
    rw [hxi] at hg
    have hmain : t.x.getD (i + 1) 0 = t.x.getD i 0 - settings.learningRate * g +
        (if i = 0 then 0 else
          settings.momentum * (t.x.getD i 0 - t.x.getD (i - 1) 0)) := by
      rw [hxi1, hxi, (gdSeq1_step hg).1]
      cases i with
      | zero => simp
      | succ j =>
        have hj1 : j < settings.numSteps.getD DEFAULT_NUM_STEPS + 1 := by omega
        obtain ⟨hxj, _⟩ := traj1_gd_getD hty ht hj1
        simp only [Nat.add_sub_cancel]
        rw [gdSeq1_xprev, hxj]
    refine ⟨hmain, fun hmom => ?_⟩
    rw [hmain, hmom]
    simp
  · intro sqrtFn analysis settings t hty ht i gx gy hi hgx hgy
    have hi1 : i < settings.numSteps.getD DEFAULT_NUM_STEPS + 1 := Nat.lt_succ_of_lt hi
    have hi2 : i + 1 < settings.numSteps.getD DEFAULT_NUM_STEPS + 1 := Nat.succ_lt_succ hi
    obtain ⟨hxi, hyi, _⟩ := traj2_gd_getD hty ht hi1
    obtain ⟨hxi1, hyi1, _⟩ := traj2_gd_getD hty ht hi2
    rw [hxi, hyi] at hgx hgy
    obtain ⟨hsx, hsy, _⟩ := gdSeq2_step hgx hgy
    have hmainx : t.x.getD (i + 1) 0 = t.x.getD i 0 - settings.learningRate * gx +
        (if i = 0 then 0 else
          settings.momentum * (t.x.getD i 0 - t.x.getD (i - 1) 0)) := by
      rw [hxi1, hxi, hsx]
      cases i with
      | zero => simp
      | succ j =>
        have hj1 : j < settings.numSteps.getD DEFAULT_NUM_STEPS + 1 := by omega
        obtain ⟨hxj, _, _⟩ := traj2_gd_getD hty ht hj1
        simp only [Nat.add_sub_cancel]
        rw [gdSeq2_xprev, hxj]
    have hmainy : t.y.getD (i + 1) 0 = t.y.getD i 0 - settings.learningRate * gy +
        (if i = 0 then 0 else
          settings.momentum * (t.y.getD i 0 - t.y.getD (i - 1) 0)) := by
      rw [hyi1, hyi, hsy]
      cases i with
      | zero => simp
      | succ j =>
        have hj1 : j < settings.numSteps.getD DEFAULT_NUM_STEPS + 1 := by omega
        obtain ⟨_, hyj, _⟩ := traj2_gd_getD hty ht hj1
        simp only [Nat.add_sub_cancel]
        rw [gdSeq2_yprev, hyj]
    refine ⟨hmainx, hmainy, fun hmom => ⟨?_, ?_⟩⟩
    · rw [hmainx, hmom]; simp
    · rw [hmainy, hmom]; simp

/-- C2 witness: Gradient Descent on `x^2` from `x = 1` with learning rate
`1/10` and momentum `1/2`; at step 1 the gradient is `8/5` and the update
rule holds with the recorded prior displacement. -/
theorem c2_witness :
    ∃ t, computeTrajectory1D sqAnalysis1 gdSettings1 = Except.ok t ∧
      evaluateNumber sqAnalysis1.gradient (t.x.getD 1 0) = some (8 / 5) ∧
      t.x.getD 2 0 = t.x.getD 1 0 - gdSettings1.learningRate * (8 / 5) +
        gdSettings1.momentum * (t.x.getD 1 0 - t.x.getD 0 0) := by
  obtain ⟨t, ht⟩ : ∃ t, computeTrajectory1D sqAnalysis1 gdSettings1 = Except.ok t :=
    ⟨_, @computeTrajectory1D_gd sqAnalysis1 gdSettings1 rfl⟩
  have hb1 : (1 : ℕ) < gdSettings1.numSteps.getD DEFAULT_NUM_STEPS + 1 := by
    norm_num [gdSettings1]
  obtain ⟨hx1, _⟩ := traj1_gd_getD rfl ht hb1
  have hx1v : t.x.getD 1 0 = 4 / 5 := by
    rw [hx1]
    norm_num [gdSeq1, sqAnalysis1, gdSettings1, evaluateNumber, ensureValue]
  have hgrad : evaluateNumber sqAnalysis1.gradient (t.x.getD 1 0) = some (8 / 5) := by
    rw [hx1v]
    norm_num [sqAnalysis1, evaluateNumber]
  have h := (c2_gradient_descent_update.1 sqAnalysis1 gdSettings1 t rfl ht 1 (8 / 5)
    (by norm_num [gdSettings1]) hgrad).1
  exact ⟨t, ht, hgrad, by simpa using h⟩

/-- Newton settings with one step from the stationary point `x = 0`. -/
def newtonSettings0 : Settings := ⟨"Newton", some 1, 0, 0, 1 / 10, 0, 9 / 10, 99 / 100⟩

/-- C4 counterexample: 1D Newton on `x^2` starting at the stationary point
`x = 0`.  The step leaves position and objective unchanged (observably a
stall), yet the gradient and Hessian evaluate to finite values `0` and `2`
and `|2|` is not below `EPSILON` — so the claimed "exactly when"
equivalence between stalling and the invalid/near-singular condition
fails. -/
theorem c4_counterexample :
    ∃ t, computeTrajectory1D sqAnalysis1 newtonSettings0 = Except.ok t ∧
      t.x.getD 1 0 = t.x.getD 0 0 ∧ t.y.getD 1 0 = t.y.getD 0 0 ∧
      evaluateNumber sqAnalysis1.gradient (t.x.getD 0 0) = some 0 ∧
      evaluateNumber sqAnalysis1.hessian (t.x.getD 0 0) = some 2 ∧
      ¬ |(2 : ℚ)| < EPSILON := by
  obtain ⟨t, ht⟩ : ∃ t, computeTrajectory1D sqAnalysis1 newtonSettings0 = Except.ok t :=
    ⟨_, @computeTrajectory1D_newton sqAnalysis1 newtonSettings0 rfl⟩
  have hb0 : (0 : ℕ) < newtonSettings0.numSteps.getD DEFAULT_NUM_STEPS + 1 := by
    norm_num [newtonSettings0]
  have hb1 : (1 : ℕ) < newtonSettings0.numSteps.getD DEFAULT_NUM_STEPS + 1 := by
    norm_num [newtonSettings0]
  obtain ⟨hx0, hy0⟩ := traj1_newton_getD rfl ht hb0
  obtain ⟨hx1, hy1⟩ := traj1_newton_getD rfl ht hb1
  have hx0v : t.x.getD 0 0 = 0 := by rw [hx0]; norm_num [newtonSeq1, newtonSettings0]
  refine ⟨t, ht, ?_, ?_, ?_, ?_, by norm_num [EPSILON]⟩
  · rw [hx1, hx0]
    norm_num [newtonSeq1, sqAnalysis1, newtonSettings0, evaluateNumber, ensureValue, EPSILON]
  · rw [hy1, hy0]
    norm_num [newtonSeq1, sqAnalysis1, newtonSettings0, evaluateNumber, ensureValue, EPSILON]
  · rw [hx0v]; norm_num [sqAnalysis1, evaluateNumber]
  · rw [hx0v]; norm_num [sqAnalysis1, evaluateNumber]

/-- C4 (amended): under "Newton" a step carries position and objective
forward unchanged when the gradient or Hessian evaluation is invalid or (1D)
the Hessian's magnitude is below `EPSILON`, or (2D) any of the six scalars
is invalid or the Hessian is singular; otherwise the step is
`x[i+1] = x[i] − g/h` in 1D and position minus `H⁻¹·g` in 2D.  (The converse
of "exactly when" does not hold: a valid zero-length Newton step is
observationally identical to a stall.) -/
theorem c4_newton_stall_and_step :
    (∀ (analysis : Analysis1) (settings : Settings) (t : Traj1),
      settings.optimiserType = "Newton" →
      computeTrajectory1D analysis settings = Except.ok t →
      ∀ i, i < settings.numSteps.getD DEFAULT_NUM_STEPS →
        ((evaluateNumber analysis.gradient (t.x.getD i 0) = none ∨
            evaluateNumber analysis.hessian (t.x.getD i 0) = none ∨
            (∃ hv, evaluateNumber analysis.hessian (t.x.getD i 0) = some hv ∧
              |hv| < EPSILON)) →
          t.x.getD (i + 1) 0 = t.x.getD i 0 ∧ t.y.getD (i + 1) 0 = t.y.getD i 0) ∧
        (∀ g h, evaluateNumber analysis.gradient (t.x.getD i 0) = some g →
          evaluateNumber analysis.hessian (t.x.getD i 0) = some h →
          ¬ |h| < EPSILON →
          t.x.getD (i + 1) 0 = t.x.getD i 0 - g / h)) ∧
    (∀ (sqrtFn : ℚ → ℚ) (analysis : Analysis2) (settings : Settings) (t : Traj2),
      settings.optimiserType = "Newton" →
      computeTrajectory2D sqrtFn analysis settings = Except.ok t →
      ∀ i, i < settings.numSteps.getD DEFAULT_NUM_STEPS →
        ((evaluateNumber analysis.gradient.x (t.x.getD i 0, t.y.getD i 0) = none ∨
            evaluateNumber analysis.gradient.y (t.x.getD i 0, t.y.getD i 0) = none ∨
            evaluateNumber analysis.hessian.xx (t.x.getD i 0, t.y.getD i 0) = none ∨
            evaluateNumber analysis.hessian.xy (t.x.getD i 0, t.y.getD i 0) = none ∨
            evaluateNumber analysis.hessian.yx (t.x.getD i 0, t.y.getD i 0) = none ∨
            evaluateNumber analysis.hessian.yy (t.x.getD i 0, t.y.getD i 0) = none ∨
            (∃ hxx hxy hyx hyy,
              evaluateNumber analysis.hessian.xx (t.x.getD i 0, t.y.getD i 0) = some hxx ∧
              evaluateNumber analysis.hessian.xy (t.x.getD i 0, t.y.getD i 0) = some hxy ∧
              evaluateNumber analysis.hessian.yx (t.x.getD i 0, t.y.getD i 0) = some hyx ∧
              evaluateNumber analysis.hessian.yy (t.x.getD i 0, t.y.getD i 0) = some hyy ∧
              invert2x2 hxx hxy hyx hyy = none)) →
          t.x.getD (i + 1) 0 = t.x.getD i 0 ∧ t.y.getD (i + 1) 0 = t.y.getD i 0 ∧
            t.z.getD (i + 1) 0 = t.z.getD i 0) ∧
        (∀ gx gy hxx hxy hyx hyy inv,
          evaluateNumber analysis.gradient.x (t.x.getD i 0, t.y.getD i 0) = some gx →
          evaluateNumber analysis.gradient.y (t.x.getD i 0, t.y.getD i 0) = some gy →
          evaluateNumber analysis.hessian.xx (t.x.getD i 0, t.y.getD i 0) = some hxx →
          evaluateNumber analysis.hessian.xy (t.x.getD i 0, t.y.getD i 0) = some hxy →
          evaluateNumber analysis.hessian.yx (t.x.getD i 0, t.y.getD i 0) = some hyx →
          evaluateNumber analysis.hessian.yy (t.x.getD i 0, t.y.getD i 0) = some hyy →
          invert2x2 hxx hxy hyx hyy = some inv →
          t.x.getD (i + 1) 0 = t.x.getD i 0 - (inv.xx * gx + inv.xy * gy) ∧
          t.y.getD (i + 1) 0 = t.y.getD i 0 - (inv.yx * gx + inv.yy * gy))) := by
  constructor
  · intro analysis settings t hty ht i hi
    have hi1 : i < settings.numSteps.getD DEFAULT_NUM_STEPS + 1 := Nat.lt_succ_of_lt hi
    have hi2 : i + 1 < settings.numSteps.getD DEFAULT_NUM_STEPS + 1 := Nat.succ_lt_succ hi
    obtain ⟨hxi, hyi⟩ := traj1_newton_getD hty ht hi1
    obtain ⟨hxi1, hyi1⟩ := traj1_newton_getD hty ht hi2
    constructor
    · intro hcond
      rw [hxi] at hcond
      have hstall := newtonSeq1_stall hcond
      exact ⟨by rw [hxi1, hxi, hstall], by rw [hyi1, hyi, hstall]⟩
    · intro g h hg hh hbig
      rw [hxi] at hg hh
      rw [hxi1, hxi, (newtonSeq1_step hg hh hbig).1]
  · intro sqrtFn analysis settings t hty ht i hi
    have hi1 : i < settings.numSteps.getD DEFAULT_NUM_STEPS + 1 := Nat.lt_succ_of_lt hi
    have hi2 : i + 1 < settings.numSteps.getD DEFAULT_NUM_STEPS + 1 := Nat.succ_lt_succ hi
    obtain ⟨hxi, hyi, hzi⟩ := traj2_newton_getD hty ht hi1
    obtain ⟨hxi1, hyi1, hzi1⟩ := traj2_newton_getD hty ht hi2
    constructor
    · intro hcond
      rw [hxi, hyi] at hcond
      have hstall := newtonSeq2_stall hcond
      exact ⟨by rw [hxi1, hxi, hstall], by rw [hyi1, hyi, hstall],
        by rw [hzi1, hzi, hstall]⟩
    · intro gx gy hxx hxy hyx hyy inv hgx hgy hhxx hhxy hhyx hhyy hinv
      rw [hxi, hyi] at hgx hgy hhxx hhxy hhyx hhyy
      obtain ⟨hsx, hsy, _⟩ := newtonSeq2_step hgx hgy hhxx hhxy hhyx hhyy hinv
      exact ⟨by rw [hxi1, hxi, hsx], by rw [hyi1, hyi, hsy]⟩

/-- C4 witness: 1D Newton on `x^2` from `x = 1` takes the exact step
`1 − 2/2` at step 0. -/
theorem c4_witness :
    ∃ t, computeTrajectory1D sqAnalysis1 newtonSettings = Except.ok t ∧
      evaluateNumber sqAnalysis1.gradient (t.x.getD 0 0) = some 2 ∧
      evaluateNumber sqAnalysis1.hessian (t.x.getD 0 0) = some 2 ∧
      t.x.getD 1 0 = t.x.getD 0 0 - 2 / 2 := by
  obtain ⟨t, ht⟩ : ∃ t, computeTrajectory1D sqAnalysis1 newtonSettings = Except.ok t :=
    ⟨_, @computeTrajectory1D_newton sqAnalysis1 newtonSettings rfl⟩
  have hb0 : (0 : ℕ) < newtonSettings.numSteps.getD DEFAULT_NUM_STEPS + 1 := by
    norm_num [newtonSettings]
  obtain ⟨hx0, _⟩ := traj1_newton_getD rfl ht hb0
  have hx0v : t.x.getD 0 0 = 1 := by rw [hx0]; norm_num [newtonSeq1, newtonSettings]
  have hg : evaluateNumber sqAnalysis1.gradient (t.x.getD 0 0) = some 2 := by
    rw [hx0v]; norm_num [sqAnalysis1, evaluateNumber]
  have hh : evaluateNumber sqAnalysis1.hessian (t.x.getD 0 0) = some 2 := by
    rw [hx0v]; norm_num [sqAnalysis1, evaluateNumber]
  refine ⟨t, ht, hg, hh, ?_⟩
  exact ((c4_newton_stall_and_step.1 sqAnalysis1 newtonSettings t rfl ht 0
    (by norm_num [newtonSettings])).2) 2 2 hg hh (by norm_num [EPSILON])

/-- A variant of `sqAnalysis1` whose objective evaluator always throws but
whose derivative evaluators agree with `sqAnalysis1`. -/
def errObjAnalysis1 : Analysis1 :=
  ⟨fun _ => RawResult.err, sqAnalysis1.gradient, sqAnalysis1.hessian⟩

/-- C8: after every advancing (non-stalled) step the objective at `i + 1` is
the safe evaluation of the objective at the new position with the previous
objective as fallback (so an invalid evaluation carries the previous value
forward), and the position arrays do not depend on the objective evaluator
at all — the position advance is unaffected by the objective fallback. -/
theorem c8_objective_recompute_frame :
    (∀ (analysis : Analysis1) (settings : Settings) (t : Traj1),
      computeTrajectory1D analysis settings = Except.ok t →
      ∀ i, i < settings.numSteps.getD DEFAULT_NUM_STEPS →
        (settings.optimiserType = "Gradient Descent" →
          ∀ g, evaluateNumber analysis.gradient (t.x.getD i 0) = some g →
            t.y.getD (i + 1) 0 =
              ensureValue (evaluateNumber analysis.fn (t.x.getD (i + 1) 0))
                (t.y.getD i 0)) ∧
        (settings.optimiserType = "Newton" →
          ∀ g h, evaluateNumber analysis.gradient (t.x.getD i 0) = some g →
            evaluateNumber analysis.hessian (t.x.getD i 0) = some h →
            ¬ |h| < EPSILON →
            t.y.getD (i + 1) 0 =
              ensureValue (evaluateNumber analysis.fn (t.x.getD (i + 1) 0))
                (t.y.getD i 0))) ∧
    (∀ (sqrtFn : ℚ → ℚ) (analysis : Analysis2) (settings : Settings) (t : Traj2),
      computeTrajectory2D sqrtFn analysis settings = Except.ok t →
      ∀ i, i < settings.numSteps.getD DEFAULT_NUM_STEPS →
        (settings.optimiserType = "Gradient Descent" →
          ∀ gx gy, evaluateNumber analysis.gradient.x (t.x.getD i 0, t.y.getD i 0) = some gx →
            evaluateNumber analysis.gradient.y (t.x.getD i 0, t.y.getD i 0) = some gy →
            t.z.getD (i + 1) 0 =
              ensureValue (evaluateNumber analysis.fn
                  (t.x.getD (i + 1) 0, t.y.getD (i + 1) 0)) (t.z.getD i 0)) ∧
        (settings.optimiserType = "Adam" →
          ∀ gx gy, evaluateNumber analysis.gradient.x (t.x.getD i 0, t.y.getD i 0) = some gx →
            evaluateNumber analysis.gradient.y (t.x.getD i 0, t.y.getD i 0) = some gy →
            t.z.getD (i + 1) 0 =
              ensureValue (evaluateNumber analysis.fn
                  (t.x.getD (i + 1) 0, t.y.getD (i + 1) 0)) (t.z.getD i 0)) ∧
        (settings.optimiserType = "Newton" →
          ∀ gx gy hxx hxy hyx hyy inv,
            evaluateNumber analysis.gradient.x (t.x.getD i 0, t.y.getD i 0) = some gx →
            evaluateNumber analysis.gradient.y (t.x.getD i 0, t.y.getD i 0) = some gy →
            evaluateNumber analysis.hessian.xx (t.x.getD i 0, t.y.getD i 0) = some hxx →
            evaluateNumber analysis.hessian.xy (t.x.getD i 0, t.y.getD i 0) = some hxy →
            evaluateNumber analysis.hessian.yx (t.x.getD i 0, t.y.getD i 0) = some hyx →
            evaluateNumber analysis.hessian.yy (t.x.getD i 0, t.y.getD i 0) = some hyy →
            invert2x2 hxx hxy hyx hyy = some inv →
            t.z.getD (i + 1) 0 =
              ensureValue (evaluateNumber analysis.fn
                  (t.x.getD (i + 1) 0, t.y.getD (i + 1) 0)) (t.z.getD i 0))) ∧
    (∀ (analysis analysis' : Analysis1) (settings : Settings),
      analysis'.gradient = analysis.gradient →
      analysis'.hessian = analysis.hessian →
      (computeTrajectory1D analysis settings).map Traj1.x =
        (computeTrajectory1D analysis' settings).map Traj1.x) ∧
    (∀ (sqrtFn : ℚ → ℚ) (analysis analysis' : Analysis2) (settings : Settings),
      analysis'.gradient = analysis.gradient →
      analysis'.hessian = analysis.hessian →
      (computeTrajectory2D sqrtFn analysis settings).map Traj2.x =
        (computeTrajectory2D sqrtFn analysis' settings).map Traj2.x ∧
      (computeTrajectory2D sqrtFn analysis settings).map Traj2.y =
        (computeTrajectory2D sqrtFn analysis' settings).map Traj2.y) := by
  refine ⟨?_, ?_, ?_, ?_⟩
  · intro analysis settings t ht i hi
    have hi1 : i < settings.numSteps.getD DEFAULT_NUM_STEPS + 1 := Nat.lt_succ_of_lt hi
    have hi2 : i + 1 < settings.numSteps.getD DEFAULT_NUM_STEPS + 1 := Nat.succ_lt_succ hi
    constructor
    · intro hty g hg
      obtain ⟨hxi, hyi⟩ := traj1_gd_getD hty ht hi1
      obtain ⟨hxi1, hyi1⟩ := traj1_gd_getD hty ht hi2
      rw [hxi] at hg
      rw [hyi1, hyi, hxi1, (gdSeq1_step hg).2]
    · intro hty g h hg hh hbig
      obtain ⟨hxi, hyi⟩ := traj1_newton_getD hty ht hi1
      obtain ⟨hxi1, hyi1⟩ := traj1_newton_getD hty ht hi2
      rw [hxi] at hg hh
      rw [hyi1, hyi, hxi1, (newtonSeq1_step hg hh hbig).2]
  · intro sqrtFn analysis settings t ht i hi
    have hi1 : i < settings.numSteps.getD DEFAULT_NUM_STEPS + 1 := Nat.lt_succ_of_lt hi
    have hi2 : i + 1 < settings.numSteps.getD DEFAULT_NUM_STEPS + 1 := Nat.succ_lt_succ hi
    refine ⟨?_, ?_, ?_⟩
    · intro hty gx gy hgx hgy
      obtain ⟨hxi, hyi, hzi⟩ := traj2_gd_getD hty ht hi1
      obtain ⟨hxi1, hyi1, hzi1⟩ := traj2_gd_getD hty ht hi2
      rw [hxi, hyi] at hgx hgy
      rw [hzi1, hzi, hxi1, hyi1, (gdSeq2_step hgx hgy).2.2]
    · intro hty gx gy hgx hgy
      obtain ⟨hxi, hyi, hzi⟩ := traj2_adam_getD hty ht hi1
      obtain ⟨hxi1, hyi1, hzi1⟩ := traj2_adam_getD hty ht hi2
      rw [hxi, hyi] at hgx hgy
      rw [hzi1, hzi, hxi1, hyi1, (adamSeq2_step hgx hgy).2.2.2.2.2.2]
    · intro hty gx gy hxx hxy hyx hyy inv hgx hgy hhxx hhxy hhyx hhyy hinv
      obtain ⟨hxi, hyi, hzi⟩ := traj2_newton_getD hty ht hi1
      obtain ⟨hxi1, hyi1, hzi1⟩ := traj2_newton_getD hty ht hi2
      rw [hxi, hyi] at hgx hgy hhxx hhxy hhyx hhyy
      rw [hzi1, hzi, hxi1, hyi1,
        (newtonSeq2_step hgx hgy hhxx hhxy hhyx hhyy hinv).2.2]
  · intro analysis analysis' settings hg hh
    by_cases h1 : settings.optimiserType = "Gradient Descent"
    · rw [@computeTrajectory1D_gd analysis settings h1,
        @computeTrajectory1D_gd analysis' settings h1]
      simp only [Except.map]
      exact congrArg Except.ok
        (congrArg List.ofFn (funext fun j => ((gdSeq1_x_indep hg j).2).symm))
    · by_cases h2 : settings.optimiserType = "Newton"
      · rw [@computeTrajectory1D_newton analysis settings h2,
          @computeTrajectory1D_newton analysis' settings h2]
        simp only [Except.map]
        exact congrArg Except.ok
          (congrArg List.ofFn (funext fun j => (newtonSeq1_x_indep hg hh j).symm))
      · simp [computeTrajectory1D, h1, h2]
  · intro sqrtFn analysis analysis' settings hg hh
    by_cases h1 : settings.optimiserType = "Gradient Descent"
    · rw [@computeTrajectory2D_gd sqrtFn analysis settings h1,
        @computeTrajectory2D_gd sqrtFn analysis' settings h1]
      simp only [Except.map]
      exact ⟨congrArg Except.ok
          (congrArg List.ofFn (funext fun j => ((gdSeq2_xy_indep hg j).2.2.1).symm)),
        congrArg Except.ok
          (congrArg List.ofFn (funext fun j => ((gdSeq2_xy_indep hg j).2.2.2).symm))⟩
    · by_cases h2 : settings.optimiserType = "Adam"
      · rw [@computeTrajectory2D_adam sqrtFn analysis settings h2,
          @computeTrajectory2D_adam sqrtFn analysis' settings h2]
        simp only [Except.map]
        exact ⟨congrArg Except.ok
            (congrArg List.ofFn (funext fun j => ((adamSeq2_xy_indep hg j).1).symm)),
          congrArg Except.ok
            (congrArg List.ofFn (funext fun j => ((adamSeq2_xy_indep hg j).2.1).symm))⟩
      · by_cases h3 : settings.optimiserType = "Newton"
        · rw [@computeTrajectory2D_newton sqrtFn analysis settings h3,
            @computeTrajectory2D_newton sqrtFn analysis' settings h3]
          simp only [Except.map]
          exact ⟨congrArg Except.ok
              (congrArg List.ofFn (funext fun j => ((newtonSeq2_xy_indep hg hh j).1).symm)),
            congrArg Except.ok
              (congrArg List.ofFn (funext fun j => ((newtonSeq2_xy_indep hg hh j).2).symm))⟩
        · constructor <;> simp [computeTrajectory2D, h1, h2, h3]

/-- C8 witness: on `x^2` under Gradient Descent the objective at step 1 is
the safe evaluation at the new position, and replacing the objective
evaluator by an always-throwing one leaves the position array unchanged. -/
theorem c8_witness :
    (∃ t, computeTrajectory1D sqAnalysis1 gdSettings1 = Except.ok t ∧
      evaluateNumber sqAnalysis1.gradient (t.x.getD 0 0) = some 2 ∧
      t.y.getD 1 0 =
        ensureValue (evaluateNumber sqAnalysis1.fn (t.x.getD 1 0)) (t.y.getD 0 0)) ∧
    (computeTrajectory1D sqAnalysis1 gdSettings1).map Traj1.x =
      (computeTrajectory1D errObjAnalysis1 gdSettings1).map Traj1.x := by
  constructor
  · obtain ⟨t, ht⟩ : ∃ t, computeTrajectory1D sqAnalysis1 gdSettings1 = Except.ok t :=
      ⟨_, @computeTrajectory1D_gd sqAnalysis1 gdSettings1 rfl⟩
    have hb0 : (0 : ℕ) < gdSettings1.numSteps.getD DEFAULT_NUM_STEPS + 1 := by
      norm_num [gdSettings1]
    obtain ⟨hx0, _⟩ := traj1_gd_getD rfl ht hb0
    have hx0v : t.x.getD 0 0 = 1 := by rw [hx0]; norm_num [gdSeq1, gdSettings1]
    have hg : evaluateNumber sqAnalysis1.gradient (t.x.getD 0 0) = some 2 := by
      rw [hx0v]; norm_num [sqAnalysis1, evaluateNumber]
    exact ⟨t, ht, hg, (c8_objective_recompute_frame.1 sqAnalysis1 gdSettings1 t ht 0
      (by norm_num [gdSettings1])).1 rfl 2 hg⟩
  · exact c8_objective_recompute_frame.2.2.1 sqAnalysis1 errObjAnalysis1 gdSettings1 rfl rfl

/-- Modelled from the claim wording (not from the source): the Adam
bias-correction denominator with `EPSILON` substituted only when the
denominator's magnitude is strictly below `EPSILON`.  The source instead
keeps the denominator only when its magnitude strictly exceeds `EPSILON`,
so the two disagree exactly on the boundary `|c| = EPSILON`. -/
def specCorrectionDenom (c : ℚ) : ℚ := if |c| < EPSILON then EPSILON else c

/-- A 2D analysis with constant gradient `(1, 1)` (objective and Hessian
constant `0`). -/
def adamBoundaryAnalysis : Analysis2 :=
  ⟨fun _ => .num (some 0), ⟨fun _ => .num (some 1), fun _ => .num (some 1)⟩,
    ⟨fun _ => .num (some 0), fun _ => .num (some 0),
      fun _ => .num (some 0), fun _ => .num (some 0)⟩⟩

/-- Adam settings with `beta1 = 1 + 1e-9`, placing the first bias-correction
denominator `1 − beta1` exactly on the magnitude-`EPSILON` boundary. -/
def adamBoundarySettings : Settings :=
  ⟨"Adam", some 1, 0, 0, 1, 0, 1 + 1 / 1000000000, 0⟩

/-- C3 counterexample: with `beta1 = 1 + 1e-9` the first correction
denominator is `−1e-9`, whose magnitude equals `EPSILON` (so it is not
below it); the claim then mandates dividing by the true denominator, but the
code substitutes `EPSILON` (its guard keeps the denominator only when the
magnitude strictly exceeds `EPSILON`), producing `x[1] = 1/(1 + 1e-8)`
instead of the claimed `−1/(1 + 1e-8)`. -/
theorem c3_counterexample :
    (computeTrajectory2D id adamBoundaryAnalysis adamBoundarySettings).map
        (fun t => t.x.getD 1 0) = Except.ok (100000000 / 100000001 : ℚ) ∧
    evaluateNumber adamBoundaryAnalysis.gradient.x (0, 0) = some 1 ∧
    evaluateNumber adamBoundaryAnalysis.gradient.y (0, 0) = some 1 ∧
    (100000000 / 100000001 : ℚ) ≠
      adamBoundarySettings.initialX - adamBoundarySettings.learningRate *
        ((adamBoundarySettings.beta1 * 0 + (1 - adamBoundarySettings.beta1) * 1) /
          specCorrectionDenom (1 - adamBoundarySettings.beta1 ^ (0 + 1))) /
        (id ((adamBoundarySettings.beta2 * 0 +
            (1 - adamBoundarySettings.beta2) * 1 * 1) /
          specCorrectionDenom (1 - adamBoundarySettings.beta2 ^ (0 + 1))) +
          ADAM_EPSILON) := by
  refine ⟨?_, rfl, rfl, ?_⟩
  · rw [computeTrajectory2D_adam rfl]
    simp only [Except.map]
    rw [getD_ofFn (fun j => (adamSeq2 id adamBoundaryAnalysis adamBoundarySettings j).x) 1
      (by norm_num [adamBoundarySettings])]
    norm_num [adamSeq2, adamBoundaryAnalysis, adamBoundarySettings, evaluateNumber,
      ensureValue, EPSILON, ADAM_EPSILON, abs_of_pos, abs_of_neg]
  · norm_num [specCorrectionDenom, adamBoundarySettings, EPSILON, ADAM_EPSILON,
      abs_of_pos, abs_of_neg]

/-- C3 (amended): under "Adam", at every step with finite gradients the
moments are updated per axis as `m ← β1·m + (1−β1)·g`,
`v ← β2·v + (1−β2)·g²` from initial moments `0`; the bias-corrected
estimates divide by `1 − β1^(i+1)` resp. `1 − β2^(i+1)` except that a
correction denominator whose magnitude does not exceed `EPSILON` is replaced
by `EPSILON` itself; and the position update is
`x[i+1] = x[i] − lr·m̂x / (√v̂x + 1e-8)`, symmetrically for `y`. -/
theorem c3_adam_update :
    ∀ (sqrtFn : ℚ → ℚ) (analysis : Analysis2) (settings : Settings) (t : Traj2),
      settings.optimiserType = "Adam" →
      computeTrajectory2D sqrtFn analysis settings = Except.ok t →
      (adamSeq2 sqrtFn analysis settings 0).mx = 0 ∧
      (adamSeq2 sqrtFn analysis settings 0).my = 0 ∧
      (adamSeq2 sqrtFn analysis settings 0).vx = 0 ∧
      (adamSeq2 sqrtFn analysis settings 0).vy = 0 ∧
      ∀ i gx gy, i < settings.numSteps.getD DEFAULT_NUM_STEPS →
        evaluateNumber analysis.gradient.x (t.x.getD i 0, t.y.getD i 0) = some gx →
        evaluateNumber analysis.gradient.y (t.x.getD i 0, t.y.getD i 0) = some gy →
        (adamSeq2 sqrtFn analysis settings (i + 1)).mx =
          settings.beta1 * (adamSeq2 sqrtFn analysis settings i).mx +
            (1 - settings.beta1) * gx ∧
        (adamSeq2 sqrtFn analysis settings (i + 1)).my =
          settings.beta1 * (adamSeq2 sqrtFn analysis settings i).my +
            (1 - settings.beta1) * gy ∧
        (adamSeq2 sqrtFn analysis settings (i + 1)).vx =
          settings.beta2 * (adamSeq2 sqrtFn analysis settings i).vx +
            (1 - settings.beta2) * gx * gx ∧
        (adamSeq2 sqrtFn analysis settings (i + 1)).vy =
          settings.beta2 * (adamSeq2 sqrtFn analysis settings i).vy +
            (1 - settings.beta2) * gy * gy ∧
        t.x.getD (i + 1) 0 = t.x.getD i 0 - settings.learningRate *
          ((adamSeq2 sqrtFn analysis settings (i + 1)).mx /
            (if EPSILON < |1 - settings.beta1 ^ (i + 1)| then 1 - settings.beta1 ^ (i + 1)
              else EPSILON)) /
          (sqrtFn ((adamSeq2 sqrtFn analysis settings (i + 1)).vx /
            (if EPSILON < |1 - settings.beta2 ^ (i + 1)| then 1 - settings.beta2 ^ (i + 1)
              else EPSILON)) + ADAM_EPSILON) ∧
        t.y.getD (i + 1) 0 = t.y.getD i 0 - settings.learningRate *
          ((adamSeq2 sqrtFn analysis settings (i + 1)).my /
            (if EPSILON < |1 - settings.beta1 ^ (i + 1)| then 1 - settings.beta1 ^ (i + 1)
              else EPSILON)) /
          (sqrtFn ((adamSeq2 sqrtFn analysis settings (i + 1)).vy /
            (if EPSILON < |1 - settings.beta2 ^ (i + 1)| then 1 - settings.beta2 ^ (i + 1)
              else EPSILON)) + ADAM_EPSILON) := by
  intro sqrtFn analysis settings t hty ht
  refine ⟨by simp [adamSeq2], by simp [adamSeq2], by simp [adamSeq2],
    by simp [adamSeq2], ?_⟩
  intro i gx gy hi hgx hgy
  have hi1 : i < settings.numSteps.getD DEFAULT_NUM_STEPS + 1 := Nat.lt_succ_of_lt hi
  have hi2 : i + 1 < settings.numSteps.getD DEFAULT_NUM_STEPS + 1 := Nat.succ_lt_succ hi
  obtain ⟨hxi, hyi, hzi⟩ := traj2_adam_getD hty ht hi1
  obtain ⟨hxi1, hyi1, hzi1⟩ := traj2_adam_getD hty ht hi2
  rw [hxi, hyi] at hgx hgy
  obtain ⟨hmx, hmy, hvx, hvy, hsx, hsy, _⟩ := adamSeq2_step hgx hgy
  refine ⟨hmx, hmy, hvx, hvy, ?_, ?_⟩
  · rw [hxi1, hxi]
    exact hsx
  · rw [hyi1, hyi]
    exact hsy

/-- C3 witness: Adam on `x^2 + y^2` from `(1, 1)` with `beta1 = 9/10`,
`beta2 = 99/100`: the first step's moment and position updates. -/
theorem c3_witness :
    ∃ t, computeTrajectory2D id sqAnalysis2 adamSettings = Except.ok t ∧
      evaluateNumber sqAnalysis2.gradient.x (t.x.getD 0 0, t.y.getD 0 0) = some 2 ∧
      evaluateNumber sqAnalysis2.gradient.y (t.x.getD 0 0, t.y.getD 0 0) = some 2 ∧
      (adamSeq2 id sqAnalysis2 adamSettings 0).mx = 0 ∧
      (adamSeq2 id sqAnalysis2 adamSettings 1).mx =
        adamSettings.beta1 * (adamSeq2 id sqAnalysis2 adamSettings 0).mx +
          (1 - adamSettings.beta1) * 2 ∧
      t.x.getD 1 0 = t.x.getD 0 0 - adamSettings.learningRate *
        ((adamSeq2 id sqAnalysis2 adamSettings 1).mx /
          (if EPSILON < |1 - adamSettings.beta1 ^ (0 + 1)| then
            1 - adamSettings.beta1 ^ (0 + 1) else EPSILON)) /
        (id ((adamSeq2 id sqAnalysis2 adamSettings 1).vx /
          (if EPSILON < |1 - adamSettings.beta2 ^ (0 + 1)| then
            1 - adamSettings.beta2 ^ (0 + 1) else EPSILON)) + ADAM_EPSILON) := by
  obtain ⟨t, ht⟩ : ∃ t, computeTrajectory2D id sqAnalysis2 adamSettings = Except.ok t :=
    ⟨_, @computeTrajectory2D_adam id sqAnalysis2 adamSettings rfl⟩
  have hb0 : (0 : ℕ) < adamSettings.numSteps.getD DEFAULT_NUM_STEPS + 1 := by
    norm_num [adamSettings]
  obtain ⟨hx0, hy0, _⟩ := traj2_adam_getD rfl ht hb0
  have hx0v : t.x.getD 0 0 = 1 := by rw [hx0]; norm_num [adamSeq2, adamSettings]
  have hy0v : t.y.getD 0 0 = 1 := by rw [hy0]; norm_num [adamSeq2, adamSettings]
  have hgx : evaluateNumber sqAnalysis2.gradient.x (t.x.getD 0 0, t.y.getD 0 0) = some 2 := by
    rw [hx0v, hy0v]; norm_num [sqAnalysis2, evaluateNumber]
  have hgy : evaluateNumber sqAnalysis2.gradient.y (t.x.getD 0 0, t.y.getD 0 0) = some 2 := by
    rw [hx0v, hy0v]; norm_num [sqAnalysis2, evaluateNumber]
  obtain ⟨h0mx, _, _, _, hrest⟩ := c3_adam_update id sqAnalysis2 adamSettings t rfl ht
  obtain ⟨hmx, _, _, _, hx, _⟩ := hrest 0 2 2 (by norm_num [adamSettings]) hgx hgy
  exact ⟨t, ht, hgx, hgy, h0mx, hmx, hx⟩

end Optimisers
